import Mathlib

/-!
Shallow embedding of the cg-elb-log-ingestor pipeline
(elb_log_parse.py, elb_log_fetcher.py, elasticsearch_shipper.py)
together with proofs about the claims of its specification.

Conventions used throughout:
* Python dicts are key-ordered association lists `List (String × Value)`;
  all dicts created by the program have pairwise distinct keys and lookups
  return the first binding, matching Python semantics.
* Python exceptions are modelled with `Except PyErr`.
* Machine integers do not occur (Python ints are unbounded); SHA-256 uses
  `Nat` arithmetic reduced mod 2^32 explicitly.
* `float` values never have their numeric value inspected by the program
  (they are only stored in documents), so a float is carried as its source
  literal; only the success/failure of float() conversion is meaningful.
-/

/-- The Python exceptions that the embedded code can raise. -/
inductive PyErr where
  | keyError (k : String) : PyErr
  | valueError : PyErr
  | nameError (n : String) : PyErr
  | typeError : PyErr
  deriving DecidableEq, Repr

/-- JSON-ish values manipulated by the parser: the contents of parsed
log records.  `vFloat` carries the source literal (see header note). -/
inductive Value where
  | vNull : Value
  | vBool (b : Bool) : Value
  | vInt (n : Int) : Value
  | vFloat (lit : String) : Value
  | vStr (s : String) : Value
  | vList (l : List Value) : Value
  | vDict (d : List (String × Value)) : Value

open Value

/-- A Python dict of string keys to values. -/
abbrev Dict := List (String × Value)

/-- Association-list lookup (first binding wins, like a Python dict with
unique keys). -/
def alookup {α : Type} : List (String × α) → String → Option α
  | [], _ => none
  | (k, v) :: rest, f => if k = f then some v else alookup rest f

/-- Python `field in d`. -/
def containsKey {α : Type} (d : List (String × α)) (f : String) : Bool :=
  (alookup d f).isSome

/-- Python `d[k] = v` for a key already present: replace the first binding,
keeping dict order (Python dicts keep insertion order). -/
def setVal {α : Type} : List (String × α) → String → α → List (String × α)
  | [], _, _ => []
  | (k, v) :: rest, f, w => if k = f then (f, w) :: rest else (k, v) :: setVal rest f w

/-- Python `d[k]`, raising `KeyError` when the key is missing. -/
def getItem (d : Dict) (f : String) : Except PyErr Value :=
  match alookup d f with
  | some v => Except.ok v
  | none => Except.error (PyErr.keyError f)

/-- Python truthiness for the values that can appear in a parsed record. -/
def truthy : Value → Bool
  | vNull => false
  | vBool b => b
  | vInt n => n != 0
  | vFloat lit => lit.data.any (fun c => '1' ≤ c ∧ c ≤ '9')
  | vStr s => s ≠ ""
  | vList l => !l.isEmpty
  | vDict d => !d.isEmpty

/-- Python `str()` restricted to the values the pipeline ever formats
(strings and ints; the container/None/bool cases follow Python, the float
case returns the literal, never reached by the program). -/
def pyStr : Value → String
  | vNull => "None"
  | vBool b => if b then "True" else "False"
  | vInt n => toString n
  | vFloat lit => lit
  | vStr s => s
  | vList _ => ""
  | vDict _ => ""

/-- Characters removed by Python `str.strip()` (ASCII whitespace; the log
lines contain no exotic Unicode whitespace). -/
def isPyWs (c : Char) : Bool :=
  c = ' ' ∨ c = '\t' ∨ c = '\n' ∨ c = '\x0d' ∨ c = '\x0b' ∨ c = '\x0c'

/-- Python `str.strip()`: drop leading and trailing whitespace. -/
def pyStrip (s : String) : String :=
  String.mk (((s.data.dropWhile isPyWs).reverse.dropWhile isPyWs).reverse)

/-- Python `int(s)` on the strings the regexes can deliver (characters drawn
from `[-0-9]`): optional sign followed by at least one digit. -/
def pyInt (s : String) : Except PyErr Int :=
  let core : List Char → Except PyErr Int := fun ds =>
    if ds = [] ∨ ¬ ds.all (fun c => '0' ≤ c ∧ c ≤ '9') then Except.error PyErr.valueError
    else Except.ok (ds.foldl (fun a c => a * 10 + (c.toNat - 48 : Int)) 0)
  match s.data with
  | '-' :: rest => (core rest).map (fun n => -n)
  | '+' :: rest => core rest
  | ds => core ds

def isDigitCh (c : Char) : Bool := '0' ≤ c ∧ c ≤ '9'

/-- Validity of Python `float(s)` on strings drawn from `[-.0-9]`:
an optional sign, then either `digits[.digits*]` or `.digits+`. -/
def pyFloatOk (s : String) : Bool :=
  let body : List Char → Bool := fun cs =>
    match cs.span isDigitCh with
    | (ds, []) => ds ≠ []
    | (ds, '.' :: frac) => (ds ≠ [] ∨ frac ≠ []) ∧ frac.all isDigitCh
    | _ => false
  match s.data with
  | '-' :: rest => body rest
  | '+' :: rest => body rest
  | cs => body cs

/-! ## datetime embedding for `timestamp_to_timestamp`

`timestamp_to_timestamp` parses `"%Y-%m-%dT%H:%M:%S.%f%z"`, converts to a
UTC epoch instant and re-renders as a millisecond-precision ISO string with
a trailing `Z`.  The embedding does the same with exact integer arithmetic
(proleptic Gregorian calendar); fields are fixed-width as in canonical ALB
timestamps, `%f` is 1-6 digits, `%z` accepts `Z`, `+HHMM`, `-HHMM`,
`+HH:MM`, `-HH:MM`.  Out-of-range dates raise `ValueError` as in Python. -/

def digitVal (c : Char) : Nat := c.toNat - 48

/-- Read exactly `n` digits. -/
def grabDigits : Nat → List Char → Option (List Nat × List Char)
  | 0, cs => some ([], cs)
  | n + 1, c :: cs =>
    if isDigitCh c then (grabDigits n cs).map (fun p => (digitVal c :: p.1, p.2)) else none
  | _ + 1, [] => none

/-- Read up to `n` digits (greedy). -/
def grabUpTo : Nat → List Char → (List Nat × List Char)
  | 0, cs => ([], cs)
  | n + 1, c :: cs =>
    if isDigitCh c then
      let p := grabUpTo n cs
      (digitVal c :: p.1, p.2)
    else ([], c :: cs)
  | _ + 1, [] => ([], [])

def natOfDigits (ds : List Nat) : Nat := ds.foldl (fun a d => a * 10 + d) 0

def litc (c : Char) : List Char → Option (List Char)
  | x :: r => if x = c then some r else none
  | [] => none

/-- Parse a `%z` zone suffix into an offset in seconds. -/
def parseZone (cs : List Char) : Option Int :=
  match cs with
  | ['Z'] => some 0
  | c :: rest =>
    if c = '+' ∨ c = '-' then
      match grabDigits 2 rest with
      | none => none
      | some (hd, r1) =>
        let r2 := match r1 with
          | ':' :: r => r
          | r => r
        match grabDigits 2 r2 with
        | none => none
        | some (md, r3) =>
          if r3 = [] ∧ natOfDigits md ≤ 59 ∧ natOfDigits hd * 60 + natOfDigits md < 1440 then
            some ((if c = '+' then 1 else -1) * (natOfDigits hd * 3600 + natOfDigits md * 60 : Nat))
          else none
    else none
  | [] => none

/-- Fields of a parsed timestamp: year, month, day, hour, minute, second,
microsecond, and UTC offset in seconds. -/
structure TsFields where
  year : Int
  month : Nat
  day : Nat
  hour : Nat
  minute : Nat
  second : Nat
  micro : Nat
  offSec : Int

/-- Parse a date prefix `"%Y-%m-%d"`. -/
def parseDatePart (cs : List Char) : Option ((Nat × Nat × Nat) × List Char) :=
  match grabDigits 4 cs with
  | none => none
  | some (yd, r0) =>
    match litc '-' r0 with
    | none => none
    | some r1 =>
      match grabDigits 2 r1 with
      | none => none
      | some (mod_, r2) =>
        match litc '-' r2 with
        | none => none
        | some r3 =>
          match grabDigits 2 r3 with
          | none => none
          | some (dd, r4) => some ((natOfDigits yd, natOfDigits mod_, natOfDigits dd), r4)

/-- Parse a time-of-day part `"%H:%M:%S"`. -/
def parseTimePart (cs : List Char) : Option ((Nat × Nat × Nat) × List Char) :=
  match grabDigits 2 cs with
  | none => none
  | some (hd, r0) =>
    match litc ':' r0 with
    | none => none
    | some r1 =>
      match grabDigits 2 r1 with
      | none => none
      | some (mid, r2) =>
        match litc ':' r2 with
        | none => none
        | some r3 =>
          match grabDigits 2 r3 with
          | none => none
          | some (sd, r4) => some ((natOfDigits hd, natOfDigits mid, natOfDigits sd), r4)

/-- Parse `"%Y-%m-%dT%H:%M:%S.%f%z"` into its fields. -/
def parseTsFields (cs : List Char) : Option TsFields :=
  match parseDatePart cs with
  | none => none
  | some (ymd, r0) =>
    match litc 'T' r0 with
    | none => none
    | some r1 =>
      match parseTimePart r1 with
      | none => none
      | some (hms, r2) =>
        match litc '.' r2 with
        | none => none
        | some r3 =>
          match grabUpTo 6 r3 with
          | ([], _) => none
          | (fd, r4) =>
            match parseZone r4 with
            | none => none
            | some off =>
              some ⟨(ymd.1 : Int), ymd.2.1, ymd.2.2, hms.1, hms.2.1, hms.2.2,
                natOfDigits fd * 10 ^ (6 - fd.length), off⟩

def isLeapYear (y : Int) : Bool :=
  (y % 4 = 0 ∧ y % 100 ≠ 0) ∨ y % 400 = 0

def daysInMonth (y : Int) (m : Nat) : Nat :=
  if m = 2 then (if isLeapYear y then 29 else 28)
  else if m = 4 ∨ m = 6 ∨ m = 9 ∨ m = 11 then 30
  else 31

/-- Days since 1970-01-01 of a proleptic-Gregorian civil date. -/
def daysFromCivil (y0 : Int) (m d : Nat) : Int :=
  let y := if m ≤ 2 then y0 - 1 else y0
  let era := Int.fdiv y 400
  let yoe := (y - era * 400).toNat
  let doy := (153 * (if m > 2 then m - 3 else m + 9) + 2) / 5 + d - 1
  let doe := yoe * 365 + yoe / 4 - yoe / 100 + doy
  era * 146097 + (doe : Int) - 719468

/-- Civil date from days since 1970-01-01. -/
def civilFromDays (z0 : Int) : Int × Nat × Nat :=
  let z := z0 + 719468
  let era := Int.fdiv z 146097
  let doe := (z - era * 146097).toNat
  let yoe := (doe - doe / 1460 + doe / 36524 - doe / 146096) / 365
  let y : Int := era * 400 + yoe
  let doy := doe - (365 * yoe + yoe / 4 - yoe / 100)
  let mp := (5 * doy + 2) / 153
  let d := doy - (153 * mp + 2) / 5 + 1
  let m := if mp < 10 then mp + 3 else mp - 9
  (if m ≤ 2 then y + 1 else y, m, d)

def padNat (w n : Nat) : String :=
  let s := toString n
  String.mk (List.replicate (w - s.length) '0') ++ s

/-- `timestamp_to_timestamp`: re-encode a `%Y-%m-%dT%H:%M:%S.%f%z` timestamp
as a millisecond-precision UTC ISO-8601 string ending in `Z`. -/
def timestamp_to_timestamp (ts : String) : Except PyErr String :=
  match parseTsFields ts.data with
  | none => Except.error PyErr.valueError
  | some f =>
    if f.year < 1 ∨ f.month < 1 ∨ f.month > 12 ∨ f.day < 1 ∨ f.day > daysInMonth f.year f.month ∨
        f.hour > 23 ∨ f.minute > 59 ∨ f.second > 59 then
      Except.error PyErr.valueError
    else
      let totalUS : Int :=
        (daysFromCivil f.year f.month f.day * 86400 + f.hour * 3600 + f.minute * 60 + f.second) * 1000000
          + f.micro - f.offSec * 1000000
      let secs := Int.fdiv totalUS 1000000
      let us := (totalUS - secs * 1000000).toNat
      let days := Int.fdiv secs 86400
      let sod := (secs - days * 86400).toNat
      let c := civilFromDays days
      if c.1 < 1 ∨ c.1 > 9999 then Except.error PyErr.valueError
      else
        Except.ok (padNat 4 c.1.toNat ++ "-" ++ padNat 2 c.2.1 ++ "-" ++ padNat 2 c.2.2 ++ "T" ++
          padNat 2 (sod / 3600) ++ ":" ++ padNat 2 (sod / 60 % 60) ++ ":" ++ padNat 2 (sod % 60) ++
          "." ++ padNat 3 (us / 1000) ++ "Z")

deriving instance DecidableEq for Except

/-! ## regex engine

A backtracking matcher for the two fixed grammars.  `rxResults` returns
every way a pattern can match a prefix of the input, in Python `re`
priority order: alternatives left first, greedy stars longest first.
`rxMatch` (the embedding of `pattern.match(line)` + `groupdict()`) takes
the first result.  Capture groups record the consumed substring. -/

inductive Rx where
  | emp : Rx
  | lit (c : Char) : Rx
  | cls (p : Char → Bool) : Rx
  | clsStar (p : Char → Bool) : Rx
  | seq (a b : Rx) : Rx
  | alt (a b : Rx) : Rx
  | eol : Rx
  | grp (name : String) (r : Rx) : Rx

open Rx

/-- Suffixes reachable by a greedy `[..]*`, longest-consumed first. -/
def starSplits (p : Char → Bool) : List Char → List (List Char)
  | [] => [[]]
  | c :: rest =>
    if p c then (starSplits p rest) ++ [c :: rest]
    else [c :: rest]

/-- All (remaining-suffix, captures) pairs, in match priority order. -/
def rxResults : Rx → List Char → List (List Char × List (String × String))
  | emp, s => [(s, [])]
  | lit c, s =>
    match s with
    | [] => []
    | x :: rest => if x = c then [(rest, [])] else []
  | cls p, s =>
    match s with
    | [] => []
    | x :: rest => if p x then [(rest, [])] else []
  | clsStar p, s => (starSplits p s).map (fun r => (r, []))
  | seq a b, s =>
    (rxResults a s).flatMap (fun pa =>
      (rxResults b pa.1).map (fun pb => (pb.1, pa.2 ++ pb.2)))
  | alt a b, s => rxResults a s ++ rxResults b s
  | eol, s => match s with | [] => [([], [])] | _ :: _ => []
  | grp n r, s =>
    (rxResults r s).map (fun pr =>
      (pr.1, pr.2 ++ [(n, String.mk (s.take (s.length - pr.1.length)))]))

/-- `pattern.match(line)` followed by `groupdict()`: the highest-priority
match's captures (trailing unmatched input is allowed, as for `re.match`). -/
def rxMatch (r : Rx) (s : String) : Option (List (String × String)) :=
  match rxResults r s.data with
  | [] => none
  | pr :: _ => some pr.2

def seqAll : List Rx → Rx
  | [] => emp
  | [r] => r
  | r :: rest => seq r (seqAll rest)

def notSpace (c : Char) : Bool := c ≠ ' '
def dashDigit (c : Char) : Bool := c = '-' ∨ isDigitCh c
def dashDotDigit (c : Char) : Bool := c = '-' ∨ c = '.' ∨ isDigitCh c
def notQuote (c : Char) : Bool := c ≠ '"'
def upperAlnumDash (c : Char) : Bool := ('A' ≤ c ∧ c ≤ 'Z') ∨ isDigitCh c ∨ c = '-'
def sslProtoChar (c : Char) : Bool :=
  ('A' ≤ c ∧ c ≤ 'Z') ∨ ('a' ≤ c ∧ c ≤ 'z') ∨ isDigitCh c ∨ c = '.' ∨ c = '-'
def notNl (c : Char) : Bool := c ≠ '\n'
def colonOrDash (c : Char) : Bool := c = ':' ∨ c = '-'

/-- `[..]+` as one mandatory class character followed by a greedy star. -/
def clsPlus (p : Char → Bool) : Rx := seq (cls p) (clsStar p)

/-- The ALB log-line grammar (`ALB_LOG_LINE_REGEX`), group for group. -/
def ALB_LOG_LINE_REGEX : Rx := seqAll [
  grp "type" (clsStar notSpace), lit ' ',
  grp "time" (clsStar notSpace), lit ' ',
  grp "elb" (clsStar notSpace), lit ' ',
  grp "client_ip" (clsStar notSpace), lit ':', grp "client_port" (clsStar isDigitCh), lit ' ',
  grp "target_ip" (clsStar notSpace), cls colonOrDash, grp "target_port" (clsStar isDigitCh), lit ' ',
  grp "request_processing_time" (clsStar dashDotDigit), lit ' ',
  grp "target_processing_time" (clsStar dashDotDigit), lit ' ',
  grp "response_processing_time" (clsStar dashDotDigit), lit ' ',
  grp "elb_status_code" (clsStar dashDigit), lit ' ',
  grp "target_status_code" (clsStar dashDigit), lit ' ',
  grp "received_bytes" (clsStar dashDigit), lit ' ',
  grp "sent_bytes" (clsStar dashDigit), lit ' ',
  lit '"', grp "request_verb" (clsStar notSpace), lit ' ',
  grp "request_url" (clsStar notSpace), lit ' ',
  grp "request_proto" (alt (lit '-') (clsStar notSpace)),
  alt (lit ' ') emp, lit '"', lit ' ',
  lit '"', grp "user_agent" (clsStar notQuote), lit '"', lit ' ',
  grp "ssl_cipher" (clsPlus upperAlnumDash), lit ' ',
  grp "ssl_protocol" (clsStar sslProtoChar), lit ' ',
  grp "target_group_arn" (clsStar notSpace), lit ' ',
  lit '"', grp "trace_id" (clsStar notQuote), lit '"', lit ' ',
  lit '"', grp "domain_name" (clsStar notQuote), lit '"', lit ' ',
  lit '"', grp "chosen_cert_arn" (clsStar notQuote), lit '"', lit ' ',
  grp "matched_rule_priority" (clsStar dashDotDigit), lit ' ',
  grp "request_creation_time" (clsStar notSpace), lit ' ',
  lit '"', grp "actions_executed" (clsStar notQuote), lit '"', lit ' ',
  lit '"', grp "redirect_url" (clsStar notQuote), lit '"',
  grp "lambda_error_reason" (alt eol (seqAll [lit ' ', lit '"', clsStar notSpace, lit '"'])),
  grp "new_field" (clsStar notNl)
]

/-- The classic ELB log-line grammar (`ELB_LOG_LINE_REGEX`). -/
def ELB_LOG_LINE_REGEX : Rx := seqAll [
  grp "time" (clsStar notSpace), lit ' ',
  grp "elb" (clsStar notSpace), lit ' ',
  grp "client_ip" (clsStar notSpace), lit ':', grp "client_port" (clsStar isDigitCh), lit ' ',
  grp "target_ip" (clsStar notSpace), cls colonOrDash, grp "target_port" (clsStar isDigitCh), lit ' ',
  grp "request_processing_time" (clsStar dashDotDigit), lit ' ',
  grp "target_processing_time" (clsStar dashDotDigit), lit ' ',
  grp "response_processing_time" (clsStar dashDotDigit), lit ' ',
  grp "elb_status_code" (alt emp (clsStar dashDigit)), lit ' ',
  grp "target_status_code" (alt (lit '-') (clsStar dashDigit)), lit ' ',
  grp "received_bytes" (clsStar dashDigit), lit ' ',
  grp "sent_bytes" (clsStar dashDigit), lit ' ',
  lit '"', grp "request_verb" (clsStar notSpace), lit ' ',
  grp "request_url" (clsStar notSpace), lit ' ',
  grp "request_proto" (alt (lit '-') (clsStar notSpace)),
  alt (lit ' ') emp, lit '"', lit ' ',
  lit '"', grp "user_agent" (clsStar notQuote), lit '"', lit ' ',
  grp "ssl_cipher" (clsPlus upperAlnumDash), lit ' ',
  grp "ssl_protocol" (clsStar sslProtoChar)
]

/-! ## SHA-256 (`hashlib.sha256(...).hexdigest()`) -/

def w32 (n : Nat) : Nat := n % 4294967296

def rotr32 (n k : Nat) : Nat := w32 ((n >>> k) ||| (n <<< (32 - k)))

def shaK : List Nat := [
  1116352408, 1899447441, 3049323471, 3921009573, 961987163, 1508970993,
  2453635748, 2870763221, 3624381080, 310598401, 607225278, 1426881987,
  1925078388, 2162078206, 2614888103, 3248222580, 3835390401, 4022224774,
  264347078, 604807628, 770255983, 1249150122, 1555081692, 1996064986,
  2554220882, 2821834349, 2952996808, 3210313671, 3336571891, 3584528711,
  113926993, 338241895, 666307205, 773529912, 1294757372, 1396182291,
  1695183700, 1986661051, 2177026350, 2456956037, 2730485921, 2820302411,
  3259730800, 3345764771, 3516065817, 3600352804, 4094571909, 275423344,
  430227734, 506948616, 659060556, 883997877, 958139571, 1322822218,
  1537002063, 1747873779, 1955562222, 2024104815, 2227730452, 2361852424,
  2428436474, 2756734187, 3204031479, 3329325298]

structure Sha256State where
  a : Nat
  b : Nat
  c : Nat
  d : Nat
  e : Nat
  f : Nat
  g : Nat
  h : Nat

def shaInitState : Sha256State :=
  ⟨1779033703, 3144134277, 1013904242, 2773480762, 1359893119, 2600822924, 528734635, 1541459225⟩

/-- SHA-256 message padding over bytes. -/
def shaPad (msg : List Nat) : List Nat :=
  let bitLen := msg.length * 8
  let padZeros := (119 - msg.length % 64) % 64
  msg ++ [0x80] ++ List.replicate padZeros 0 ++
    [(bitLen >>> 56) % 256, (bitLen >>> 48) % 256, (bitLen >>> 40) % 256, (bitLen >>> 32) % 256,
     (bitLen >>> 24) % 256, (bitLen >>> 16) % 256, (bitLen >>> 8) % 256, bitLen % 256]

def bytesToWords : List Nat → List Nat
  | b0 :: b1 :: b2 :: b3 :: rest => (b0 <<< 24 ||| b1 <<< 16 ||| b2 <<< 8 ||| b3) :: bytesToWords rest
  | _ => []

/-- Message-schedule extension; `ws` holds the words most recent first. -/
def shaExtend (ws : List Nat) : Nat → List Nat
  | 0 => ws
  | n + 1 =>
    let g : Nat → Nat := fun i => ws.getD (i - 1) 0
    let w15 := g 15
    let w2 := g 2
    let s0 := (rotr32 w15 7) ^^^ (rotr32 w15 18) ^^^ (w15 >>> 3)
    let s1 := (rotr32 w2 17) ^^^ (rotr32 w2 19) ^^^ (w2 >>> 10)
    shaExtend (w32 (g 16 + s0 + g 7 + s1) :: ws) n

def shaRound (st : Sha256State) (kw : Nat × Nat) : Sha256State :=
  let s1 := (rotr32 st.e 6) ^^^ (rotr32 st.e 11) ^^^ (rotr32 st.e 25)
  let ch := (st.e &&& st.f) ^^^ ((4294967295 - st.e) &&& st.g)
  let t1 := w32 (st.h + s1 + ch + kw.1 + kw.2)
  let s0 := (rotr32 st.a 2) ^^^ (rotr32 st.a 13) ^^^ (rotr32 st.a 22)
  let mj := (st.a &&& st.b) ^^^ (st.a &&& st.c) ^^^ (st.b &&& st.c)
  let t2 := w32 (s0 + mj)
  ⟨w32 (t1 + t2), st.a, st.b, st.c, w32 (st.d + t1), st.e, st.f, st.g⟩

def shaAddState (x y : Sha256State) : Sha256State :=
  ⟨w32 (x.a + y.a), w32 (x.b + y.b), w32 (x.c + y.c), w32 (x.d + y.d),
   w32 (x.e + y.e), w32 (x.f + y.f), w32 (x.g + y.g), w32 (x.h + y.h)⟩

def shaBlock (st : Sha256State) (block : List Nat) : Sha256State :=
  let ws := (shaExtend (bytesToWords block).reverse 48).reverse
  let st' := (shaK.zip ws).foldl shaRound st
  shaAddState st st'

def shaBlocksGo : Nat → Sha256State → List Nat → Sha256State
  | 0, st, _ => st
  | n + 1, st, bytes => shaBlocksGo n (shaBlock st (bytes.take 64)) (bytes.drop 64)

def shaBlocks (st : Sha256State) (bytes : List Nat) : Sha256State :=
  shaBlocksGo (bytes.length / 64) st bytes

def wordBytes (n : Nat) : List Nat := [(n >>> 24) % 256, (n >>> 16) % 256, (n >>> 8) % 256, n % 256]

def shaDigestBytes (st : Sha256State) : List Nat :=
  wordBytes st.a ++ wordBytes st.b ++ wordBytes st.c ++ wordBytes st.d ++
  wordBytes st.e ++ wordBytes st.f ++ wordBytes st.g ++ wordBytes st.h

def hexChar (n : Nat) : Char := if n < 10 then Char.ofNat (48 + n) else Char.ofNat (87 + n)

def bytesToHex (bs : List Nat) : String :=
  String.mk (bs.flatMap (fun b => [hexChar (b / 16), hexChar (b % 16)]))

/-- `bytes(s, "utf-8")`: UTF-8 encode a string (code points to bytes). -/
def utf8Bytes (s : String) : List Nat :=
  s.data.flatMap (fun c =>
    let n := c.toNat
    if n < 128 then [n]
    else if n < 2048 then [192 + n / 64, 128 + n % 64]
    else if n < 65536 then [224 + n / 4096, 128 + (n / 64) % 64, 128 + n % 64]
    else [240 + n / 262144, 128 + (n / 4096) % 64, 128 + (n / 64) % 64, 128 + n % 64])

/-- `hashlib.sha256(bytes(key, "utf-8")).hexdigest()`. -/
def sha256hex (s : String) : String :=
  bytesToHex (shaDigestBytes (shaBlocks shaInitState (shaPad (utf8Bytes s))))

/-! ## parser transform pipeline (`elb_log_parse.py`) -/

/-- The four converters appearing in `ALB_LOGS_FIELD_TYPES`. -/
inductive Converter where
  | cstr : Converter
  | cint : Converter
  | cfloat : Converter
  | cts : Converter
  deriving DecidableEq, Repr

/-- `ALB_LOGS_FIELD_TYPES`: field-to-converter table, in source order. -/
def ALB_LOGS_FIELD_TYPES : List (String × Converter) := [
  ("type", Converter.cstr),
  ("time", Converter.cts),
  ("elb", Converter.cstr),
  ("client_ip", Converter.cstr),
  ("client_port", Converter.cint),
  ("target_ip", Converter.cstr),
  ("target_port", Converter.cint),
  ("request_processing_time", Converter.cfloat),
  ("target_processing_time", Converter.cfloat),
  ("response_processing_time", Converter.cfloat),
  ("elb_status_code", Converter.cint),
  ("target_status_code", Converter.cint),
  ("received_bytes", Converter.cint),
  ("sent_bytes", Converter.cint),
  ("request_verb", Converter.cstr),
  ("request_url", Converter.cstr),
  ("request_proto", Converter.cstr),
  ("user_agent", Converter.cstr),
  ("ssl_cipher", Converter.cstr),
  ("ssl_protocol", Converter.cstr),
  ("target_group_arn", Converter.cstr),
  ("trace_id", Converter.cstr),
  ("domain_name", Converter.cstr),
  ("chosen_cert_arn", Converter.cstr),
  ("matched_rule_priority", Converter.cstr),
  ("request_creation_time", Converter.cts),
  ("actions_executed", Converter.cstr),
  ("redirect_url", Converter.cstr),
  ("lambda_error_reason", Converter.cstr),
  ("new_field", Converter.cstr)]

/-- Apply one converter to a matched string. -/
def applyConverter : Converter → String → Except PyErr Value
  | Converter.cstr, s => Except.ok (vStr s)
  | Converter.cint, s => (pyInt s).map vInt
  | Converter.cfloat, s => if pyFloatOk s then Except.ok (vFloat s) else Except.error PyErr.valueError
  | Converter.cts, s => (timestamp_to_timestamp s).map vStr

/-- The groupdict as a value dict (all captures are strings). -/
def rawDict (g : List (String × String)) : Dict :=
  g.map (fun kv => (kv.1, vStr kv.2))

/-- The loop body of `coerce_match_types`: walk the converter table; for a
field present in the dict, `-` or the empty string becomes `None` and any
other value is converted (converters can raise `ValueError`).  Each field
occurs at most once in a groupdict, so a rewritten (non-string) value is
never re-read. -/
def coerceFields : List (String × Converter) → Dict → Except PyErr Dict
  | [], d => Except.ok d
  | (f, c) :: rest, d =>
    match alookup d f with
    | none => coerceFields rest d
    | some (vStr s) =>
      if s = "-" ∨ s = "" then coerceFields rest (setVal d f vNull)
      else
        match applyConverter c s with
        | Except.error e => Except.error e
        | Except.ok w => coerceFields rest (setVal d f w)
    | some _ => coerceFields rest d

/-- `coerce_match_types`: typed dict from a groupdict. -/
def coerce_match_types (g : List (String × String)) : Except PyErr Dict :=
  coerceFields ALB_LOGS_FIELD_TYPES (rawDict g)

/-- Python `x or '-'` as used for the `@message` parts. -/
def orDash (v : Value) : Value := if truthy v then v else vStr "-"

/-- `format_alb_match`: reshape an ALB match dict into the nested document
body (f-string `@message`, `@timestamp`, nested `@alb`). -/
def format_alb_match (m : Dict) : Except PyErr Dict := do
  let verb ← getItem m "request_verb"
  let url ← getItem m "request_url"
  let proto ← getItem m "request_proto"
  let time ← getItem m "time"
  let mrp ← getItem m "matched_rule_priority"
  let ae ← getItem m "actions_executed"
  let tga ← getItem m "target_group_arn"
  let dn ← getItem m "domain_name"
  let elb ← getItem m "elb"
  let esc ← getItem m "elb_status_code"
  let rb ← getItem m "received_bytes"
  let cca ← getItem m "chosen_cert_arn"
  let cip ← getItem m "client_ip"
  let cport ← getItem m "client_port"
  let rpt ← getItem m "response_processing_time"
  let ru ← getItem m "redirect_url"
  let sb ← getItem m "sent_bytes"
  let tr ← getItem m "trace_id"
  let tport ← getItem m "target_port"
  let tpt ← getItem m "target_processing_time"
  let tsc ← getItem m "target_status_code"
  let tip ← getItem m "target_ip"
  let ty ← getItem m "type"
  let reqpt ← getItem m "request_processing_time"
  let rct ← getItem m "request_creation_time"
  let ua ← getItem m "user_agent"
  Except.ok [
    ("@message", vStr (pyStr (orDash verb) ++ " " ++ pyStr (orDash url) ++ " " ++ pyStr (orDash proto))),
    ("@timestamp", time),
    ("@alb", vDict [
      ("matched_rule_priority", mrp),
      ("actions_executed", ae),
      ("target_group_arn", tga),
      ("domain_name", dn),
      ("alb", vDict [("id", elb), ("status_code", esc)]),
      ("received_bytes", rb),
      ("chosen_cert_arn", cca),
      ("client", vDict [("ip", cip), ("port", cport)]),
      ("response", vDict [("processing_time", rpt)]),
      ("redirect_url", ru),
      ("sent_bytes", sb),
      ("trace_id", tr),
      ("target", vDict [
        ("port", tport),
        ("processing_time", tpt),
        ("status_code", tsc),
        ("ip", tip)]),
      ("type", ty),
      ("request", vDict [
        ("verb", verb),
        ("url", url),
        ("protocol", proto),
        ("processing_time", reqpt),
        ("creation_time", rct)]),
      ("user_agent", ua)])]

/-- `format_elb_match`: reshape an ELB match dict into its nested body. -/
def format_elb_match (m : Dict) : Except PyErr Dict := do
  let verb ← getItem m "request_verb"
  let url ← getItem m "request_url"
  let proto ← getItem m "request_proto"
  let rpt ← getItem m "response_processing_time"
  let elb ← getItem m "elb"
  let esc ← getItem m "elb_status_code"
  let sslc ← getItem m "ssl_cipher"
  let sslp ← getItem m "ssl_protocol"
  let sb ← getItem m "sent_bytes"
  let tport ← getItem m "target_port"
  let tpt ← getItem m "target_processing_time"
  let tsc ← getItem m "target_status_code"
  let tip ← getItem m "target_ip"
  let rb ← getItem m "received_bytes"
  let ua ← getItem m "user_agent"
  let reqpt ← getItem m "request_processing_time"
  let cip ← getItem m "client_ip"
  let cport ← getItem m "client_port"
  let time ← getItem m "time"
  Except.ok [
    ("@message", vStr (pyStr (orDash verb) ++ " " ++ pyStr (orDash url) ++ " " ++ pyStr (orDash proto))),
    ("@elb", vDict [
      ("response", vDict [("processing_time", rpt)]),
      ("elb", vDict [("id", elb), ("status_code", esc)]),
      ("ssl", vDict [("cipher", sslc), ("protocol", sslp)]),
      ("sent_bytes", sb),
      ("target", vDict [
        ("port", tport),
        ("processing_time", tpt),
        ("status_code", tsc),
        ("ip", tip)]),
      ("received_bytes", rb),
      ("request", vDict [
        ("user_agent", ua),
        ("url", url),
        ("processing_time", reqpt),
        ("verb", verb),
        ("protocol", proto)]),
      ("client", vDict [("ip", cip), ("port", cport)])]),
    ("@timestamp", time)]

/-- `{**record, **extra}`: keys of `record` first (values overridden by
`extra` on collision, which never happens here), then the new keys. -/
def mergeDicts (a b : Dict) : Dict :=
  (a.map (fun kv => (kv.1, match alookup b kv.1 with
    | some w => w
    | none => kv.2)))
  ++ b.filter (fun kv => !(containsKey a kv.1))

/-- `add_metadata`: constant shipper metadata merged into a record.
`line` is the (stripped) raw line, `filename` the source file. -/
def add_metadata (record : Dict) (line : String) (filename : String) : Dict :=
  mergeDicts record [
    ("@input", vStr "s3"),
    ("@shipper.name", vStr "elb_log_ingestor"),
    ("@version", vStr "1"),
    ("@raw", vStr line),
    ("@level", vStr "INFO"),
    ("tags", vList []),
    ("path", vStr filename)]

/-- Values dropped by `remove_empty_fields`: `None`, `{}` and `[]`
(the Python comparisons `v is None`, `v == {}`, `v == []`). -/
def isEmptyVal : Value → Bool
  | vNull => true
  | vDict [] => true
  | vList [] => true
  | _ => false

mutual

/-- Recursion of `remove_empty_fields` into a dict value (non-dict values
are left untouched; the source recurses into dicts only). -/
def pruneVal : Value → Value
  | vDict d => vDict (pruneEntries d)
  | v => v

/-- The key loop of `remove_empty_fields`: recurse into dict values, then
drop the binding if the (recursed) value is `None`, `{}` or `[]`. -/
def pruneEntries : Dict → Dict
  | [] => []
  | (k, v) :: rest =>
    let v' := pruneVal v
    if isEmptyVal v' then pruneEntries rest else (k, v') :: pruneEntries rest

end

/-- `remove_empty_fields` on a dict (the pipeline never passes `None`). -/
def remove_empty_fields (d : Dict) : Dict := pruneEntries d

/-- An element handed to `":".join` must already be a string
(`TypeError` otherwise); also `bytes(key, "utf-8")` needs a string. -/
def asJoinStr : Value → Except PyErr String
  | vStr s => Except.ok s
  | _ => Except.error PyErr.typeError

/-- Python subscript `v[f]` on an arbitrary value: only dicts are
subscriptable here. -/
def getItemV (v : Value) (f : String) : Except PyErr Value :=
  match v with
  | vDict d => getItem d f
  | _ => Except.error PyErr.typeError

/-- `generate_id`: use the `@alb` trace id, or a colon-joined composite of
elb id, client socket, timestamp and received bytes for `@elb` documents,
and hash the key with SHA-256 (hex digest). -/
def generate_id (entry : Dict) : Except PyErr String := do
  let key ←
    if containsKey entry "@alb" then do
      let alb ← getItem entry "@alb"
      let tr ← getItemV alb "trace_id"
      asJoinStr tr
    else do
      let elbo ← getItem entry "@elb"
      let elbd ← getItemV elbo "elb"
      let idv ← getItemV elbd "id"
      let ids ← asJoinStr idv
      let cl ← getItemV elbo "client"
      let ipv ← getItemV cl "ip"
      let ips ← asJoinStr ipv
      let portv ← getItemV cl "port"
      let tsv ← getItem entry "@timestamp"
      let tss ← asJoinStr tsv
      let rbv ← getItemV elbo "received_bytes"
      pure (ids ++ ":" ++ ips ++ ":" ++ pyStr portv ++ ":" ++ tss ++ ":" ++ pyStr rbv)
  pure (sha256hex key)

/-- Parser-side counters touched by `parse_alb_logs`, plus the outbox queue
(`record_out_queue`) contents appended by this call. -/
structure PState where
  lines_processed : Nat
  lines_errored : Nat
  outbox : List (String × Dict)

/-- Outcome of the body of the `for` loop of `parse_alb_logs` on one line:
continue with the next line, `return` from the whole call, or an exception
escaping the call. -/
inductive LineOut where
  | next (st : PState) : LineOut
  | bail (st : PState) : LineOut
  | exc (e : PyErr) : LineOut

/-- The tail of the `parse_alb_logs` loop body once a grammar has matched:
coerce (`ValueError` is caught and the raw match used instead), reshape per
the matched format, prune, add metadata, generate the id and enqueue.
(The `match is not None` guard in the source is always true:
`add_metadata` returns a dict.) -/
def lineBody (name : String) (st : PState) (line : String) (isALB : Bool)
    (g : List (String × String)) : LineOut :=
  let vals : Dict := match coerce_match_types g with
    | Except.ok d => d
    | Except.error _ => rawDict g
  match (if isALB then format_alb_match vals else format_elb_match vals) with
  | Except.error e => LineOut.exc e
  | Except.ok doc0 =>
    let doc1 := remove_empty_fields doc0
    let doc2 := add_metadata doc1 line name
    match generate_id doc2 with
    | Except.error e => LineOut.exc e
    | Except.ok id_ =>
      LineOut.next { st with
        lines_processed := st.lines_processed + 1,
        outbox := st.outbox ++ [(id_, doc2)] }

/-- One iteration of the `parse_alb_logs` loop: strip, try the ALB grammar,
then the ELB grammar; if neither matches, count the error and abandon the
whole call (the source's early `return`). -/
def lineStep (name : String) (st : PState) (rawLine : String) : LineOut :=
  let line := pyStrip rawLine
  match rxMatch ALB_LOG_LINE_REGEX line with
  | some g => lineBody name st line true g
  | none =>
    match rxMatch ELB_LOG_LINE_REGEX line with
    | some g => lineBody name st line false g
    | none => LineOut.bail { st with lines_errored := st.lines_errored + 1 }

/-- `parse_alb_logs`: the whole per-call loop over a batch of lines.
A `bail` outcome is the source's early `return`; an exception propagates
out of the call. -/
def parse_alb_logs (name : String) (st : PState) : List String → Except PyErr PState
  | [] => Except.ok st
  | l :: rest =>
    match lineStep name st l with
    | LineOut.next st' => parse_alb_logs name st' rest
    | LineOut.bail st' => Except.ok st'
    | LineOut.exc e => Except.error e

/-- Processing a list of lines in which every line completes normally
(no early return, no exception); used to speak about the lines before a
given position in a batch. -/
def foldOkLines (name : String) : List String → PState → Option PState
  | [], st => some st
  | l :: rest, st =>
    match lineStep name st l with
    | LineOut.next st' => foldOkLines name rest st'
    | _ => none

/-! ## fetcher embedding (`elb_log_fetcher.py`)

The object store is modelled as the list of keys it currently holds with
their line contents; a `list_objects_v2` response is either a raised
exception, a response without a `Contents` key (what S3 returns when
nothing matches the prefix), or a response carrying `Contents`. -/

structure FetcherCfg where
  unprocessedPfx : String
  processingPfx : String
  processedPfx : String

/-- Keys with contents (split lines) of the bucket. -/
abbrev Bucket := List (String × List String)

/-- `replace_prefix`: `ValueError` unless `logname` starts with
`old_prefix`, else replace its first occurrence (which, given the
`startswith` guard, is the leading prefix). -/
def replace_pfx (logname old new : String) : Except PyErr String :=
  if logname.data.take old.data.length = old.data then
    Except.ok (new ++ String.mk (logname.data.drop old.data.length))
  else Except.error PyErr.valueError

/-- `processing_name_from_unprocessed_name` exactly as written: it replaces
the unprocessed prefix with the *processed* prefix (`self.processed_prefix`
appears where the processing prefix was evidently intended). -/
def processing_name_from_unprocessed_name (cfg : FetcherCfg) (unprocessedName : String) :
    Except PyErr String :=
  replace_pfx unprocessedName cfg.unprocessedPfx cfg.processedPfx

/-- `processed_name_from_processing_name`. -/
def processed_name_from_processing_name (cfg : FetcherCfg) (processingName : String) :
    Except PyErr String :=
  replace_pfx processingName cfg.processingPfx cfg.processedPfx

/-- `move_object`: copy then delete within the bucket. -/
def move_object (bucket : Bucket) (src dst : String) : Bucket :=
  let copied := match alookup bucket src with
    | some content => bucket ++ [(dst, content)]
    | none => bucket
  copied.filter (fun kv => kv.1 ≠ src)

/-- `mark_log_processing`: compute the new name, move the object, then
`return processed_name` — a reference to an undefined local name, so the
call always raises `NameError` (after the move has already happened). -/
def mark_log_processing (cfg : FetcherCfg) (bucket : Bucket) (logname : String) :
    Bucket × Except PyErr String :=
  match processing_name_from_unprocessed_name cfg logname with
  | Except.error e => (bucket, Except.error e)
  | Except.ok processingName =>
    (move_object bucket logname processingName, Except.error (PyErr.nameError "processed_name"))

/-- `mark_log_processed`: rename from the processing to processed prefix. -/
def mark_log_processed (cfg : FetcherCfg) (bucket : Bucket) (logname : String) :
    Bucket × Except PyErr String :=
  match processed_name_from_processing_name cfg logname with
  | Except.error e => (bucket, Except.error e)
  | Except.ok processedName => (move_object bucket logname processedName, Except.ok processedName)

/-- The three shapes of a `list_objects_v2` call outcome. -/
inductive ListResp where
  | raised : ListResp
  | okNoContents : ListResp
  | okContents (keys : List String) : ListResp

/-- Mutable fetcher state: health flag, bucket, and the two queues. -/
structure FetcherSt where
  healthy : Bool
  bucket : Bucket
  to_do : List (String × List String)
  done : List String

/-- `get_next_log`: list one unprocessed key (listing exceptions are caught:
unhealthy, no work), read the `Contents` member (KeyError when S3 omits it),
claim and download the first key.  The claim step itself always raises
(`mark_log_processing`'s NameError), and that exception is not caught. -/
def get_next_log (cfg : FetcherCfg) (resp : ListResp) (st : FetcherSt) :
    FetcherSt × Except PyErr (Option (String × List String)) :=
  match resp with
  | ListResp.raised => ({ st with healthy := false }, Except.ok none)
  | ListResp.okNoContents =>
    ({ st with healthy := true }, Except.error (PyErr.keyError "Contents"))
  | ListResp.okContents keys =>
    let st1 := { st with healthy := true }
    match keys with
    | [] => (st1, Except.ok none)
    | nextObject :: _ =>
      match mark_log_processing cfg st1.bucket nextObject with
      | (bucket', Except.error e) => ({ st1 with bucket := bucket' }, Except.error e)
      | (bucket', Except.ok processingName) =>
        match alookup bucket' processingName with
        | none => ({ st1 with bucket := bucket' }, Except.error PyErr.valueError)
        | some contents =>
          ({ st1 with bucket := bucket' }, Except.ok (some (processingName, contents)))

/-- Outcome of one go around the fetcher's `while True:` loop. -/
inductive RunOut where
  | blockedForever (st : FetcherSt) : RunOut
  | stepped (st : FetcherSt) : RunOut
  | raised (e : PyErr) (st : FetcherSt) : RunOut

/-- One iteration of `S3LogFetcher.run`'s main loop: `self.done.get()` is
called with no timeout, so an empty done queue blocks the loop forever;
otherwise finalize the name (failure: log, requeue, unhealthy), then fetch
one more log (whose own uncaught exceptions propagate out of `run`). -/
def fetcher_run_step (cfg : FetcherCfg) (resp : ListResp) (st : FetcherSt) : RunOut :=
  match st.done with
  | [] => RunOut.blockedForever st
  | finishedLog :: restDone =>
    let st0 := { st with done := restDone }
    let st1 :=
      match mark_log_processed cfg st0.bucket finishedLog with
      | (bucket', Except.error _) =>
        { st0 with bucket := bucket', done := st0.done ++ [finishedLog], healthy := false }
      | (bucket', Except.ok _) => { st0 with bucket := bucket', healthy := true }
    match get_next_log cfg resp st1 with
    | (st2, Except.error e) => RunOut.raised e st2
    | (st2, Except.ok none) => RunOut.stepped st2
    | (st2, Except.ok (some work)) => RunOut.stepped { st2 with to_do := st2.to_do ++ [work] }

/-! ## shipper embedding (`elasticsearch_shipper.py`)

`datetime.fromisoformat` and `strftime` are standard-library collaborators:
they are taken as parameters (`fromiso` returns an abstract instant or
raises `ValueError`; `strf` renders an instant through the configured index
pattern).  The Elasticsearch client's `create` outcome is likewise a
parameter: it succeeds, raises `ConflictError`, or raises something else. -/

/-- Shipper counters, last-indexed instant, and the record queue contents. -/
structure ShipperSt where
  documents_indexed : Nat
  documents_errored : Nat
  duplicates_skipped : Nat
  last_document_time : Option Nat
  record_queue : List (String × Dict)

/-- The three outcomes of `self.es.create(...)`. -/
inductive CreateOutcome where
  | created : CreateOutcome
  | conflictError : CreateOutcome
  | otherError : CreateOutcome

/-- `figure_index`: look up `@timestamp` (KeyError if absent), parse it with
`datetime.fromisoformat` (TypeError on a non-string, ValueError on parse
failure) and format the result through the index pattern. -/
def figure_index (fromiso : String → Except PyErr Nat) (strf : Nat → String) (record : Dict) :
    Except PyErr String :=
  match alookup record "@timestamp" with
  | none => Except.error (PyErr.keyError "@timestamp")
  | some (vStr s) =>
    match fromiso s with
    | Except.error _ => Except.error PyErr.valueError
    | Except.ok ts => Except.ok (strf ts)
  | some _ => Except.error PyErr.typeError

/-- `index_record`: derive the index (outside the try block, so a failure
there escapes), create the document, and update counters/queue per the
outcome: conflict counts a duplicate, any other failure counts an error and
requeues the same pair, success counts an indexed document and records the
time `now`. -/
def index_record (create : String → String → Dict → CreateOutcome)
    (fromiso : String → Except PyErr Nat) (strf : Nat → String) (now : Nat)
    (st : ShipperSt) (id_ : String) (record : Dict) : Except PyErr ShipperSt :=
  match figure_index fromiso strf record with
  | Except.error e => Except.error e
  | Except.ok index =>
    Except.ok (match create index id_ record with
      | CreateOutcome.conflictError =>
        { st with duplicates_skipped := st.duplicates_skipped + 1 }
      | CreateOutcome.otherError =>
        { st with documents_errored := st.documents_errored + 1,
                  record_queue := st.record_queue ++ [(id_, record)] }
      | CreateOutcome.created =>
        { st with documents_indexed := st.documents_indexed + 1,
                  last_document_time := some now })

/-! ## helper lemmas about dictionaries -/

theorem alookup_append {α : Type} (xs ys : List (String × α)) (f : String) :
    alookup (xs ++ ys) f = ((alookup xs f).orElse (fun _ => alookup ys f)) := by
  induction xs with
  | nil => simp [alookup]
  | cons kv rest ih =>
    obtain ⟨k, v⟩ := kv
    by_cases h : k = f <;> simp [alookup, h, ih]

theorem alookup_rawDict (g : List (String × String)) (f : String) :
    alookup (rawDict g) f = (alookup g f).map vStr := by
  induction g with
  | nil => simp [alookup, rawDict]
  | cons kv rest ih =>
    obtain ⟨k, v⟩ := kv
    by_cases h : k = f
    · simp [alookup, rawDict, h]
    · simp only [rawDict, List.map_cons, alookup, h, if_neg h]
      simpa [rawDict] using ih

theorem alookup_filter_none {α : Type} (p : String × α → Bool) (d : List (String × α))
    (f : String) (h : alookup d f = none) : alookup (d.filter p) f = none := by
  induction d with
  | nil => simp [alookup]
  | cons kv rest ih =>
    obtain ⟨k, v⟩ := kv
    by_cases hk : k = f
    · simp [alookup, hk] at h
    · simp [alookup, hk] at h
      by_cases hp : p (k, v) <;> simp [List.filter, hp, alookup, hk, ih h]

theorem alookup_isSome_of_mem_keys {α : Type} (d : List (String × α)) (f : String)
    (h : f ∈ d.map Prod.fst) : (alookup d f).isSome = true := by
  induction d with
  | nil => simp at h
  | cons kv rest ih =>
    obtain ⟨k, v⟩ := kv
    by_cases hk : k = f
    · simp [alookup, hk]
    · simp [alookup, hk]
      rcases List.mem_map.mp h with ⟨⟨k', v'⟩, hmem, hfst⟩
      rcases List.mem_cons.mp hmem with heq | hmem'
      · cases heq; simp_all
      · exact ih (List.mem_map.mpr ⟨(k', v'), hmem', hfst⟩)

theorem map_fst_setVal {α : Type} (d : List (String × α)) (f : String) (w : α) :
    (setVal d f w).map Prod.fst = d.map Prod.fst := by
  induction d with
  | nil => simp [setVal]
  | cons kv rest ih =>
    obtain ⟨k, v⟩ := kv
    by_cases h : k = f <;> simp [setVal, h, ih]

theorem alookup_setVal_self {α : Type} (d : List (String × α)) (f : String) (w : α)
    (h : (alookup d f).isSome = true) : alookup (setVal d f w) f = some w := by
  induction d with
  | nil => simp [alookup] at h
  | cons kv rest ih =>
    obtain ⟨k, v⟩ := kv
    by_cases hk : k = f
    · simp [setVal, hk, alookup]
    · simp [alookup, hk] at h
      simp [setVal, hk, alookup, ih h]

theorem alookup_setVal_ne {α : Type} (d : List (String × α)) (f f' : String) (w : α)
    (h : f ≠ f') : alookup (setVal d f w) f' = alookup d f' := by
  induction d with
  | nil => simp [setVal]
  | cons kv rest ih =>
    obtain ⟨k, v⟩ := kv
    by_cases hk : k = f
    · subst hk; simp [setVal, alookup, h, ih]
    · simp [setVal, hk, alookup, ih]

/-! ## helper lemmas about `coerce_match_types` -/

theorem coerceFields_map_fst (fields : List (String × Converter)) (d d' : Dict)
    (h : coerceFields fields d = Except.ok d') : d'.map Prod.fst = d.map Prod.fst := by
  induction fields generalizing d with
  | nil => simp [coerceFields] at h; subst h; rfl
  | cons fc rest ih =>
    obtain ⟨f, c⟩ := fc
    simp only [coerceFields] at h
    cases hl : alookup d f with
    | none => rw [hl] at h; exact ih d h
    | some v =>
      rw [hl] at h
      cases v with
      | vStr s =>
        by_cases hs : s = "-" ∨ s = ""
        · simp only [if_pos hs] at h
          rw [ih _ h, map_fst_setVal]
        · simp only [if_neg hs] at h
          cases hc : applyConverter c s with
          | error e => rw [hc] at h; cases h
          | ok w => rw [hc] at h; rw [ih _ h, map_fst_setVal]
      | vNull => exact ih d h
      | vBool b => exact ih d h
      | vInt n => exact ih d h
      | vFloat lit => exact ih d h
      | vList l => exact ih d h
      | vDict dd => exact ih d h

theorem coerceFields_pres (fields : List (String × Converter)) (d d' : Dict) (f : String)
    (hf : f ∉ fields.map Prod.fst) (h : coerceFields fields d = Except.ok d') :
    alookup d' f = alookup d f := by
  induction fields generalizing d with
  | nil => simp [coerceFields] at h; subst h; rfl
  | cons fc rest ih =>
    obtain ⟨f', c⟩ := fc
    have hne : f' ≠ f := by
      intro hcon; exact hf (by simp [hcon])
    have hf' : f ∉ rest.map Prod.fst := by
      intro hcon; exact hf (by simp [hcon])
    simp only [coerceFields] at h
    cases hl : alookup d f' with
    | none => rw [hl] at h; exact ih d hf' h
    | some v =>
      rw [hl] at h
      cases v with
      | vStr s =>
        by_cases hs : s = "-" ∨ s = ""
        · simp only [if_pos hs] at h
          rw [ih _ hf' h, alookup_setVal_ne _ _ _ _ hne]
        · simp only [if_neg hs] at h
          cases hc : applyConverter c s with
          | error e => rw [hc] at h; cases h
          | ok w => rw [hc] at h; rw [ih _ hf' h, alookup_setVal_ne _ _ _ _ hne]
      | vNull => exact ih d hf' h
      | vBool b => exact ih d hf' h
      | vInt n => exact ih d hf' h
      | vFloat lit => exact ih d hf' h
      | vList l => exact ih d hf' h
      | vDict dd => exact ih d hf' h

theorem coerceFields_null (fields : List (String × Converter)) (d d' : Dict)
    (f : String) (c : Converter) (s : String)
    (hnd : (fields.map Prod.fst).Nodup) (hmem : (f, c) ∈ fields)
    (hl : alookup d f = some (vStr s)) (hs : s = "-" ∨ s = "")
    (h : coerceFields fields d = Except.ok d') : alookup d' f = some vNull := by
  induction fields generalizing d with
  | nil => simp at hmem
  | cons fc rest ih =>
    obtain ⟨f', c'⟩ := fc
    have hnd2 : (f' :: rest.map Prod.fst).Nodup := by simpa using hnd
    have hnd' : (rest.map Prod.fst).Nodup := (List.nodup_cons.mp hnd2).2
    by_cases hff : f' = f
    · subst hff
      have hnotin : f' ∉ rest.map Prod.fst := (List.nodup_cons.mp hnd2).1
      simp only [coerceFields, hl, if_pos hs] at h
      rw [coerceFields_pres rest _ _ f' hnotin h,
        alookup_setVal_self _ _ _ (by simp [hl])]
    · have hmem' : (f, c) ∈ rest := by
        rcases List.mem_cons.mp hmem with heq | h'
        · cases heq; exact absurd rfl hff
        · exact h'
      simp only [coerceFields] at h
      cases hl' : alookup d f' with
      | none => rw [hl'] at h; exact ih _ hnd' hmem' hl h
      | some v =>
        rw [hl'] at h
        cases v with
        | vStr s' =>
          by_cases hs' : s' = "-" ∨ s' = ""
          · simp only [if_pos hs'] at h
            exact ih _ hnd' hmem' (by rw [alookup_setVal_ne _ _ _ _ hff]; exact hl) h
          · simp only [if_neg hs'] at h
            cases hc : applyConverter c' s' with
            | error e => rw [hc] at h; cases h
            | ok w =>
              rw [hc] at h
              exact ih _ hnd' hmem' (by rw [alookup_setVal_ne _ _ _ _ hff]; exact hl) h
        | vNull => exact ih _ hnd' hmem' hl h
        | vBool b => exact ih _ hnd' hmem' hl h
        | vInt n => exact ih _ hnd' hmem' hl h
        | vFloat lit => exact ih _ hnd' hmem' hl h
        | vList l => exact ih _ hnd' hmem' hl h
        | vDict dd => exact ih _ hnd' hmem' hl h

/-! ## helper lemmas about the regex engine's captures -/

/-- A pattern containing no capture groups. -/
def grpFree : Rx → Bool
  | Rx.seq a b => grpFree a && grpFree b
  | Rx.alt a b => grpFree a && grpFree b
  | Rx.grp _ _ => false
  | _ => true

/-- A pattern whose groups are all at sequence top level: no group inside
an alternative and no group inside another group (both grammars here). -/
def flatGrp : Rx → Bool
  | Rx.seq a b => flatGrp a && flatGrp b
  | Rx.alt a b => grpFree a && grpFree b
  | Rx.grp _ r => grpFree r
  | _ => true

/-- The group names of a pattern, in syntactic order. -/
def grpNames : Rx → List String
  | Rx.seq a b => grpNames a ++ grpNames b
  | Rx.grp n _ => [n]
  | _ => []

theorem rxResults_grpFree (r : Rx) (hr : grpFree r = true) (s : List Char) :
    ∀ pr ∈ rxResults r s, pr.2 = [] := by
  induction r generalizing s with
  | emp => intro pr hpr; simp [rxResults] at hpr; simp [hpr]
  | lit c =>
    intro pr hpr
    cases s with
    | nil => simp [rxResults] at hpr
    | cons x rest =>
      simp only [rxResults] at hpr
      by_cases hx : x = c
      · simp [hx] at hpr; simp [hpr]
      · simp [hx] at hpr
  | cls p =>
    intro pr hpr
    cases s with
    | nil => simp [rxResults] at hpr
    | cons x rest =>
      simp only [rxResults] at hpr
      by_cases hx : p x
      · simp [hx] at hpr; simp [hpr]
      · simp [hx] at hpr
  | clsStar p =>
    intro pr hpr
    simp only [rxResults, List.mem_map] at hpr
    obtain ⟨t, _, hpr⟩ := hpr
    simp [← hpr]
  | seq a b iha ihb =>
    intro pr hpr
    simp only [grpFree, Bool.and_eq_true] at hr
    simp only [rxResults, List.mem_flatMap, List.mem_map] at hpr
    obtain ⟨pa, hpa, pb, hpb, hpr⟩ := hpr
    rw [← hpr]
    simp [iha hr.1 s pa hpa, ihb hr.2 pa.1 pb hpb]
  | alt a b iha ihb =>
    intro pr hpr
    simp only [grpFree, Bool.and_eq_true] at hr
    rcases List.mem_append.mp hpr with h' | h'
    · exact iha hr.1 s pr h'
    · exact ihb hr.2 s pr h'
  | eol =>
    intro pr hpr
    cases s with
    | nil => simp [rxResults] at hpr; simp [hpr]
    | cons x rest => simp [rxResults] at hpr
  | grp n r ih => simp [grpFree] at hr

theorem rxResults_flatGrp_keys (r : Rx) (hr : flatGrp r = true) (s : List Char) :
    ∀ pr ∈ rxResults r s, pr.2.map Prod.fst = grpNames r := by
  induction r generalizing s with
  | emp => intro pr hpr; simp [rxResults] at hpr; simp [hpr, grpNames]
  | lit c =>
    intro pr hpr
    cases s with
    | nil => simp [rxResults] at hpr
    | cons x rest =>
      simp only [rxResults] at hpr
      by_cases hx : x = c
      · simp [hx] at hpr; simp [hpr, grpNames]
      · simp [hx] at hpr
  | cls p =>
    intro pr hpr
    cases s with
    | nil => simp [rxResults] at hpr
    | cons x rest =>
      simp only [rxResults] at hpr
      by_cases hx : p x
      · simp [hx] at hpr; simp [hpr, grpNames]
      · simp [hx] at hpr
  | clsStar p =>
    intro pr hpr
    simp only [rxResults, List.mem_map] at hpr
    obtain ⟨t, _, hpr⟩ := hpr
    simp [← hpr, grpNames]
  | seq a b iha ihb =>
    intro pr hpr
    simp only [flatGrp, Bool.and_eq_true] at hr
    simp only [rxResults, List.mem_flatMap, List.mem_map] at hpr
    obtain ⟨pa, hpa, pb, hpb, hpr⟩ := hpr
    rw [← hpr]
    simp [grpNames, iha hr.1 s pa hpa, ihb hr.2 pa.1 pb hpb]
  | alt a b iha ihb =>
    intro pr hpr
    simp only [flatGrp, Bool.and_eq_true] at hr
    rcases List.mem_append.mp hpr with h' | h'
    · simp [grpNames, rxResults_grpFree a hr.1 s pr h']
    · simp [grpNames, rxResults_grpFree b hr.2 s pr h']
  | eol =>
    intro pr hpr
    cases s with
    | nil => simp [rxResults] at hpr; simp [hpr, grpNames]
    | cons x rest => simp [rxResults] at hpr
  | grp n r ih =>
    intro pr hpr
    simp only [flatGrp] at hr
    simp only [rxResults, List.mem_map] at hpr
    obtain ⟨pr0, hpr0, hpr⟩ := hpr
    rw [← hpr]
    simp [grpNames, rxResults_grpFree r hr s pr0 hpr0]

/-- A successful `rxMatch` of a flat-grouped pattern produces a groupdict
whose keys are exactly the pattern's group names in order. -/
theorem rxMatch_keys (r : Rx) (hr : flatGrp r = true) (s : String)
    (g : List (String × String)) (h : rxMatch r s = some g) :
    g.map Prod.fst = grpNames r := by
  unfold rxMatch at h
  cases hres : rxResults r s.data with
  | nil => rw [hres] at h; cases h
  | cons pr rest =>
    rw [hres] at h
    injection h with h
    rw [← h]
    exact rxResults_flatGrp_keys r hr s.data pr (by rw [hres]; exact List.mem_cons_self pr rest)

/-! ## helper lemmas about `remove_empty_fields` -/

mutual

/-- No value reachable through nested dicts is `None`, `{}` or `[]`. -/
def noEmptyLeavesV : Value → Bool
  | vDict d => noEmptyLeavesE d
  | _ => true

/-- Entry-list form of `noEmptyLeavesV`. -/
def noEmptyLeavesE : Dict → Bool
  | [] => true
  | (_, v) :: r => !isEmptyVal v && noEmptyLeavesV v && noEmptyLeavesE r

end

mutual

theorem pruneVal_noEmpty (v : Value) : noEmptyLeavesV (pruneVal v) = true :=
  match v with
  | vDict d => by simpa [pruneVal, noEmptyLeavesV] using pruneEntries_noEmpty d
  | vNull => rfl
  | vBool _ => rfl
  | vInt _ => rfl
  | vFloat _ => rfl
  | vStr _ => rfl
  | vList _ => rfl

theorem pruneEntries_noEmpty (d : Dict) : noEmptyLeavesE (pruneEntries d) = true :=
  match d with
  | [] => rfl
  | (k, v) :: rest => by
    by_cases h : isEmptyVal (pruneVal v)
    · simpa [pruneEntries, h] using pruneEntries_noEmpty rest
    · simp [pruneEntries, h, noEmptyLeavesE, pruneVal_noEmpty v, pruneEntries_noEmpty rest]

end

/-- The atomic falsy values that pruning must not remove. -/
def isPreservedFalsy : Value → Bool
  | vBool false => true
  | vInt n => n = 0
  | vStr s => s = ""
  | _ => false

theorem pruneVal_falsy (v : Value) (h : isPreservedFalsy v = true) : pruneVal v = v := by
  cases v <;> simp_all [pruneVal, isPreservedFalsy]

theorem isEmptyVal_falsy (v : Value) (h : isPreservedFalsy v = true) : isEmptyVal v = false := by
  cases v with
  | vNull => simp [isPreservedFalsy] at h
  | vDict d => simp [isPreservedFalsy] at h
  | vList l => simp [isPreservedFalsy] at h
  | vBool b => rfl
  | vInt n => rfl
  | vFloat lit => rfl
  | vStr s => rfl

theorem pruneEntries_preserves_falsy (d : Dict) (k : String) (v : Value)
    (hmem : (k, v) ∈ d) (hf : isPreservedFalsy v = true) : (k, v) ∈ pruneEntries d := by
  induction d with
  | nil => simp at hmem
  | cons kv rest ih =>
    obtain ⟨k', v'⟩ := kv
    rcases List.mem_cons.mp hmem with heq | hmem'
    · cases heq
      have h1 := pruneVal_falsy v hf
      have h2 := isEmptyVal_falsy v hf
      simp [pruneEntries, h1, h2]
    · by_cases h : isEmptyVal (pruneVal v')
      · simpa [pruneEntries, h] using ih hmem'
      · simp [pruneEntries, h]
        exact Or.inr (ih hmem')

theorem alookup_none_of_not_mem {α : Type} (d : List (String × α)) (f : String)
    (h : f ∉ d.map Prod.fst) : alookup d f = none := by
  induction d with
  | nil => rfl
  | cons kv rest ih =>
    obtain ⟨k, v⟩ := kv
    have hk : k ≠ f := by intro hc; exact h (by simp [hc])
    have h' : f ∉ rest.map Prod.fst := by intro hc; exact h (by simp [hc])
    simp [alookup, hk, ih h']

/-- Lookup in a pruned dict (with unique keys): the original binding,
pruned, or nothing if that binding pruned away. -/
theorem alookup_pruneEntries (d : Dict) (f : String) (hnd : (d.map Prod.fst).Nodup) :
    alookup (pruneEntries d) f =
      match alookup d f with
      | none => none
      | some v => if isEmptyVal (pruneVal v) then none else some (pruneVal v) := by
  induction d with
  | nil => rfl
  | cons kv rest ih =>
    obtain ⟨k, v⟩ := kv
    have hnd2 : (k :: rest.map Prod.fst).Nodup := by simpa using hnd
    have hnd' : (rest.map Prod.fst).Nodup := (List.nodup_cons.mp hnd2).2
    by_cases hk : k = f
    · subst hk
      have hnotin : k ∉ rest.map Prod.fst := (List.nodup_cons.mp hnd2).1
      by_cases h : isEmptyVal (pruneVal v)
      · have e1 : pruneEntries ((k, v) :: rest) = pruneEntries rest := by
          simp [pruneEntries, h]
        have e2 : alookup ((k, v) :: rest) k = some v := by simp [alookup]
        rw [e1, ih hnd', alookup_none_of_not_mem rest k hnotin, e2]
        simp [h]
      · have e1 : pruneEntries ((k, v) :: rest) = (k, pruneVal v) :: pruneEntries rest := by
          simp [pruneEntries, h]
        have e2 : alookup ((k, v) :: rest) k = some v := by simp [alookup]
        rw [e1, e2]
        simp [alookup, h]
    · by_cases h : isEmptyVal (pruneVal v)
      · have e1 : pruneEntries ((k, v) :: rest) = pruneEntries rest := by
          simp [pruneEntries, h]
        have e2 : alookup ((k, v) :: rest) f = alookup rest f := by simp [alookup, hk]
        rw [e1, e2]
        exact ih hnd'
      · have e1 : pruneEntries ((k, v) :: rest) = (k, pruneVal v) :: pruneEntries rest := by
          simp [pruneEntries, h]
        have e2 : alookup ((k, v) :: rest) f = alookup rest f := by simp [alookup, hk]
        have e3 : alookup ((k, pruneVal v) :: pruneEntries rest) f = alookup (pruneEntries rest) f := by
          simp [alookup, hk]
        rw [e1, e3, e2]
        exact ih hnd'

/-! ## helper lemmas about `add_metadata` and concrete grammar facts -/

theorem rawDict_map_fst (g : List (String × String)) :
    (rawDict g).map Prod.fst = g.map Prod.fst := by
  induction g with
  | nil => rfl
  | cons kv rest ih => simp [rawDict]

theorem alookup_map_override (a b : Dict) (f : String) (hb : alookup b f = none) :
    alookup (a.map (fun kv => (kv.1, match alookup b kv.1 with
      | some w => w
      | none => kv.2))) f = alookup a f := by
  induction a with
  | nil => rfl
  | cons kv rest ih =>
    obtain ⟨k, v⟩ := kv
    by_cases hk : k = f
    · subst hk
      simp [alookup, hb]
    · simp only [List.map_cons, alookup, if_neg hk]
      exact ih

theorem alookup_mergeDicts_left (a b : Dict) (f : String) (hb : alookup b f = none) :
    alookup (mergeDicts a b) f = alookup a f := by
  unfold mergeDicts
  rw [alookup_append, alookup_map_override a b f hb, alookup_filter_none _ b f hb]
  cases alookup a f <;> rfl

/-- The metadata keys added by `add_metadata` never shadow a document key
used by `generate_id`/`figure_index`. -/
theorem alookup_add_metadata (record : Dict) (line name f : String)
    (hf : f ∉ ["@input", "@shipper.name", "@version", "@raw", "@level", "tags", "path"]) :
    alookup (add_metadata record line name) f = alookup record f := by
  apply alookup_mergeDicts_left
  simp only [List.mem_cons, List.mem_singleton] at hf
  push_neg at hf
  obtain ⟨h1, h2, h3, h4, h5, h6, h7, _⟩ := hf
  simp [alookup, Ne.symm h1, Ne.symm h2, Ne.symm h3, Ne.symm h4, Ne.symm h5,
    Ne.symm h6, Ne.symm h7]

/-- Group names of the ALB grammar, as listed in the source regex. -/
def albNames : List String :=
  ["type", "time", "elb", "client_ip", "client_port", "target_ip", "target_port",
   "request_processing_time", "target_processing_time", "response_processing_time",
   "elb_status_code", "target_status_code", "received_bytes", "sent_bytes",
   "request_verb", "request_url", "request_proto", "user_agent", "ssl_cipher",
   "ssl_protocol", "target_group_arn", "trace_id", "domain_name", "chosen_cert_arn",
   "matched_rule_priority", "request_creation_time", "actions_executed", "redirect_url",
   "lambda_error_reason", "new_field"]

/-- Group names of the ELB grammar. -/
def elbNames : List String :=
  ["time", "elb", "client_ip", "client_port", "target_ip", "target_port",
   "request_processing_time", "target_processing_time", "response_processing_time",
   "elb_status_code", "target_status_code", "received_bytes", "sent_bytes",
   "request_verb", "request_url", "request_proto", "user_agent", "ssl_cipher",
   "ssl_protocol"]

theorem flatGrp_ALB : flatGrp ALB_LOG_LINE_REGEX = true := rfl

theorem flatGrp_ELB : flatGrp ELB_LOG_LINE_REGEX = true := rfl

theorem grpNames_ALB : grpNames ALB_LOG_LINE_REGEX = albNames := rfl

theorem grpNames_ELB : grpNames ELB_LOG_LINE_REGEX = elbNames := rfl

/-- A successful ALB match captures exactly the ALB fields. -/
theorem alb_match_keys (s : String) (g : List (String × String))
    (h : rxMatch ALB_LOG_LINE_REGEX s = some g) : g.map Prod.fst = albNames := by
  rw [rxMatch_keys ALB_LOG_LINE_REGEX flatGrp_ALB s g h, grpNames_ALB]

/-- A successful ELB match captures exactly the ELB fields. -/
theorem elb_match_keys (s : String) (g : List (String × String))
    (h : rxMatch ELB_LOG_LINE_REGEX s = some g) : g.map Prod.fst = elbNames := by
  rw [rxMatch_keys ELB_LOG_LINE_REGEX flatGrp_ELB s g h, grpNames_ELB]

/-! ## claims -/

/-- C2: for every nested mapping given to `remove_empty_fields`, no leaf
reachable through nested mappings is null, an empty mapping or an empty
sequence (including mappings that only become empty after their children
are pruned), while bindings to `false`, `0` and `""` survive unchanged. -/
theorem claim_C2_remove_empty_fields :
    (∀ d : Dict, noEmptyLeavesE (remove_empty_fields d) = true) ∧
    (∀ (d : Dict) (k : String) (v : Value), (k, v) ∈ d → isPreservedFalsy v = true →
      (k, v) ∈ remove_empty_fields d) :=
  ⟨fun d => pruneEntries_noEmpty d,
   fun d k v h hf => pruneEntries_preserves_falsy d k v h hf⟩

set_option maxRecDepth 40000 in
/-- Witness for C2 at the spec's own examples. -/
theorem claim_C2_witness :
    noEmptyLeavesE (remove_empty_fields
      [("foo", vDict [("bar", vDict [("baz", vDict [])])])]) = true ∧
    ("foo", vBool false) ∈ remove_empty_fields
      [("foo", vBool false), ("bar", vInt 0), ("baz", vStr "")] :=
  ⟨claim_C2_remove_empty_fields.1 _,
   claim_C2_remove_empty_fields.2 _ "foo" (vBool false) (by simp) rfl⟩

/-- C1 (amended): for a document holding an `@alb` object, the identifier
computed by `generate_id` is the SHA-256 hex digest of the trace id — a
deterministic function of the trace id, but not the trace id itself. -/
theorem claim_C1_amended (entry : Dict) (d : Dict) (t : String)
    (halb : alookup entry "@alb" = some (vDict d))
    (htr : alookup d "trace_id" = some (vStr t)) :
    generate_id entry = Except.ok (sha256hex t) := by
  simp [generate_id, containsKey, getItem, getItemV, asJoinStr, halb, htr,
    Bind.bind, Except.bind, Functor.map, Except.map, Pure.pure, Except.pure]

set_option maxRecDepth 200000 in
/-- C1 counterexample: a concrete ALB document whose identifier is the
digest of its trace id, not the trace id string claimed by the spec. -/
theorem claim_C1_counterexample :
    generate_id [("@alb", vDict [("trace_id",
        vStr "Root=1-5cd57fc0-123456789abcdef012345678")])] =
      Except.ok "1452cf19f4ea90f7ef035a5ab866c2487187606e0dd5c1db5822367d0efcc3f3" ∧
    "1452cf19f4ea90f7ef035a5ab866c2487187606e0dd5c1db5822367d0efcc3f3" ≠
      "Root=1-5cd57fc0-123456789abcdef012345678" := by
  constructor
  · rfl
  · decide

/-- Witness for C1's amended theorem at a concrete document. -/
theorem claim_C1_witness :
    generate_id [("@alb", vDict [("trace_id",
        vStr "Root=1-5cd57fc0-123456789abcdef012345678")])] =
      Except.ok (sha256hex "Root=1-5cd57fc0-123456789abcdef012345678") :=
  claim_C1_amended _ _ _ rfl rfl

/-- The prefixes configured by `main.py`'s defaults. -/
def mainCfg : FetcherCfg := ⟨"logs/", "logs-working/", "logs-done/"⟩

/-- C4: the claim step does not behave as specified.  With the default
prefixes, `processing_name_from_unprocessed_name` maps an unprocessed key
into the *processed* prefix (the source passes `self.processed_prefix`
against its own docstring), and `mark_log_processing` performs the move but
then raises `NameError` (it returns the undefined `processed_name`) instead
of returning the new name. -/
theorem claim_C4_code_bug :
    processing_name_from_unprocessed_name mainCfg "logs/app1.log" =
      Except.ok "logs-done/app1.log" ∧
    "logs-done/app1.log" ≠ "logs-working/app1.log" ∧
    (mark_log_processing mainCfg [("logs/app1.log", ["line1"])] "logs/app1.log").2 =
      Except.error (PyErr.nameError "processed_name") ∧
    (mark_log_processing mainCfg [("logs/app1.log", ["line1"])] "logs/app1.log").1 =
      [("logs-done/app1.log", ["line1"])] := by
  refine ⟨by decide, by decide, by decide, by decide⟩

/-- C3: the pipeline does raise uncaught exceptions.  In `get_next_log`,
reading `boto_reponse["Contents"]` happens outside the `try` block, so a
listing response without a `Contents` key (S3's shape when nothing matches
the prefix) raises `KeyError`; and whenever a key is claimed,
`mark_log_processing` raises `NameError` — both escape the fetcher loop. -/
theorem claim_C3_code_bug :
    (get_next_log mainCfg ListResp.okNoContents
        ⟨true, [("logs/app1.log", ["x"])], [], []⟩).2 =
      Except.error (PyErr.keyError "Contents") ∧
    (get_next_log mainCfg (ListResp.okContents ["logs/app1.log"])
        ⟨true, [("logs/app1.log", ["x"])], [], []⟩).2 =
      Except.error (PyErr.nameError "processed_name") := by
  exact ⟨by decide, by decide⟩

/-- C8: with an empty done queue the fetcher's loop blocks forever on
`self.done.get()` (called with no timeout); it never times out back to the
replenishment step as the spec claims. -/
theorem claim_C8_code_bug (cfg : FetcherCfg) (resp : ListResp) (st : FetcherSt)
    (h : st.done = []) : fetcher_run_step cfg resp st = RunOut.blockedForever st := by
  unfold fetcher_run_step
  rw [h]

/-- Witness for C8 at a concrete fetcher state. -/
theorem claim_C8_witness :
    fetcher_run_step mainCfg ListResp.okNoContents ⟨true, [], [], []⟩ =
      RunOut.blockedForever ⟨true, [], [], []⟩ :=
  claim_C8_code_bug mainCfg ListResp.okNoContents ⟨true, [], [], []⟩ rfl

/-- The three outcomes (and exact state effects) that claim C5 asserts for
every consumed pair. -/
def c5_outcomes (res : Except PyErr ShipperSt) (st : ShipperSt) (now : Nat)
    (id_ : String) (record : Dict) : Prop :=
  res = Except.ok { st with duplicates_skipped := st.duplicates_skipped + 1 } ∨
  res = Except.ok { st with documents_errored := st.documents_errored + 1,
                            record_queue := st.record_queue ++ [(id_, record)] } ∨
  res = Except.ok { st with documents_indexed := st.documents_indexed + 1,
                            last_document_time := some now }

/-- A trivially succeeding `fromisoformat` collaborator. -/
def fromisoOk : String → Except PyErr Nat := fun _ => Except.ok 0

/-- A constant index pattern collaborator. -/
def strfConst : Nat → String := fun _ => "logs-platform-2019.05.10"

/-- C5 counterexample: a record with no `@timestamp` (which the parser can
produce, since a null timestamp is pruned) makes `index_record` raise
before the `try` block: no counter changes, no requeue — none of the three
claimed outcomes. -/
theorem claim_C5_counterexample :
    index_record (fun _ _ _ => CreateOutcome.created) fromisoOk strfConst 7
        ⟨0, 0, 0, none, []⟩ "id0" [("@message", vStr "GET / HTTP/1.1")] =
      Except.error (PyErr.keyError "@timestamp") ∧
    ¬ c5_outcomes (index_record (fun _ _ _ => CreateOutcome.created) fromisoOk strfConst 7
        ⟨0, 0, 0, none, []⟩ "id0" [("@message", vStr "GET / HTTP/1.1")])
      ⟨0, 0, 0, none, []⟩ 7 "id0" [("@message", vStr "GET / HTTP/1.1")] := by
  refine ⟨rfl, ?_⟩
  intro h
  have e : index_record (fun _ _ _ => CreateOutcome.created) fromisoOk strfConst 7
      ⟨0, 0, 0, none, []⟩ "id0" [("@message", vStr "GET / HTTP/1.1")] =
      Except.error (PyErr.keyError "@timestamp") := rfl
  rw [e] at h
  rcases h with h | h | h <;> cases h

/-- C5 (amended): provided the index-name derivation from `@timestamp`
succeeds, exactly one of the three claimed outcomes happens, with exactly
the claimed counter, queue and timestamp effects. -/
theorem claim_C5_amended (create : String → String → Dict → CreateOutcome)
    (fromiso : String → Except PyErr Nat) (strf : Nat → String) (now : Nat)
    (st : ShipperSt) (id_ : String) (record : Dict) (idx : String)
    (hfi : figure_index fromiso strf record = Except.ok idx) :
    ∃ st', index_record create fromiso strf now st id_ record = Except.ok st' ∧
      ((create idx id_ record = CreateOutcome.conflictError ∧
        st' = { st with duplicates_skipped := st.duplicates_skipped + 1 }) ∨
       (create idx id_ record = CreateOutcome.otherError ∧
        st' = { st with documents_errored := st.documents_errored + 1,
                        record_queue := st.record_queue ++ [(id_, record)] }) ∨
       (create idx id_ record = CreateOutcome.created ∧
        st' = { st with documents_indexed := st.documents_indexed + 1,
                        last_document_time := some now })) := by
  cases hcr : create idx id_ record with
  | created =>
    refine ⟨_, ?_, Or.inr (Or.inr ⟨rfl, rfl⟩)⟩
    simp [index_record, hfi, hcr]
  | conflictError =>
    refine ⟨_, ?_, Or.inl ⟨rfl, rfl⟩⟩
    simp [index_record, hfi, hcr]
  | otherError =>
    refine ⟨_, ?_, Or.inr (Or.inl ⟨rfl, rfl⟩)⟩
    simp [index_record, hfi, hcr]

/-- Witness for C5's amended theorem: a concrete conflicting create. -/
theorem claim_C5_witness :
    ∃ st', index_record (fun _ _ _ => CreateOutcome.conflictError) fromisoOk strfConst 7
        ⟨1, 2, 3, none, []⟩ "id0" [("@timestamp", vStr "2019-05-10T12:00:00.123Z")] =
        Except.ok st' ∧
      (((fun (_ : String) (_ : String) (_ : Dict) => CreateOutcome.conflictError)
          "logs-platform-2019.05.10" "id0" [("@timestamp", vStr "2019-05-10T12:00:00.123Z")] =
            CreateOutcome.conflictError ∧
        st' = { documents_indexed := 1, documents_errored := 2, duplicates_skipped := 3 + 1,
                last_document_time := none, record_queue := [] }) ∨
       (((fun (_ : String) (_ : String) (_ : Dict) => CreateOutcome.conflictError)
          "logs-platform-2019.05.10" "id0" [("@timestamp", vStr "2019-05-10T12:00:00.123Z")] =
            CreateOutcome.otherError ∧
        st' = { documents_indexed := 1, documents_errored := 2 + 1, duplicates_skipped := 3,
                last_document_time := none,
                record_queue := [("id0", [("@timestamp", vStr "2019-05-10T12:00:00.123Z")])] }) ∨
       ((fun (_ : String) (_ : String) (_ : Dict) => CreateOutcome.conflictError)
          "logs-platform-2019.05.10" "id0" [("@timestamp", vStr "2019-05-10T12:00:00.123Z")] =
            CreateOutcome.created ∧
        st' = { documents_indexed := 1 + 1, documents_errored := 2, duplicates_skipped := 3,
                last_document_time := some 7, record_queue := [] }))) :=
  claim_C5_amended (fun _ _ _ => CreateOutcome.conflictError) fromisoOk strfConst 7
    ⟨1, 2, 3, none, []⟩ "id0" [("@timestamp", vStr "2019-05-10T12:00:00.123Z")]
    "logs-platform-2019.05.10" rfl

/-! ## the document bodies produced by the two format functions -/

/-- The `@alb` object of `format_alb_match`, with the looked-up values as
parameters (source order). -/
def albAlbV (mrp ae tga dn elb esc rb cca cip cport rpt ru sb tr tport tpt tsc tip ty verb url proto reqpt rct ua : Value) : Dict :=
  [("matched_rule_priority", mrp),
   ("actions_executed", ae),
   ("target_group_arn", tga),
   ("domain_name", dn),
   ("alb", vDict [("id", elb), ("status_code", esc)]),
   ("received_bytes", rb),
   ("chosen_cert_arn", cca),
   ("client", vDict [("ip", cip), ("port", cport)]),
   ("response", vDict [("processing_time", rpt)]),
   ("redirect_url", ru),
   ("sent_bytes", sb),
   ("trace_id", tr),
   ("target", vDict [("port", tport), ("processing_time", tpt), ("status_code", tsc), ("ip", tip)]),
   ("type", ty),
   ("request", vDict [("verb", verb), ("url", url), ("protocol", proto), ("processing_time", reqpt), ("creation_time", rct)]),
   ("user_agent", ua)]

/-- The whole document body of `format_alb_match`. -/
def albBodyV (verb url proto time mrp ae tga dn elb esc rb cca cip cport rpt ru sb tr tport tpt tsc tip ty reqpt rct ua : Value) : Dict :=
  [("@message", vStr (pyStr (orDash verb) ++ " " ++ pyStr (orDash url) ++ " " ++ pyStr (orDash proto))),
   ("@timestamp", time),
   ("@alb", vDict (albAlbV mrp ae tga dn elb esc rb cca cip cport rpt ru sb tr tport tpt tsc tip ty verb url proto reqpt rct ua))]

/-- The `@elb` object of `format_elb_match`. -/
def elbElbV (rpt elb esc sslc sslp sb tport tpt tsc tip rb ua url reqpt verb proto cip cport : Value) : Dict :=
  [("response", vDict [("processing_time", rpt)]),
   ("elb", vDict [("id", elb), ("status_code", esc)]),
   ("ssl", vDict [("cipher", sslc), ("protocol", sslp)]),
   ("sent_bytes", sb),
   ("target", vDict [("port", tport), ("processing_time", tpt), ("status_code", tsc), ("ip", tip)]),
   ("received_bytes", rb),
   ("request", vDict [("user_agent", ua), ("url", url), ("processing_time", reqpt), ("verb", verb), ("protocol", proto)]),
   ("client", vDict [("ip", cip), ("port", cport)])]

/-- The whole document body of `format_elb_match`. -/
def elbBodyV (verb url proto rpt elb esc sslc sslp sb tport tpt tsc tip rb ua reqpt cip cport time : Value) : Dict :=
  [("@message", vStr (pyStr (orDash verb) ++ " " ++ pyStr (orDash url) ++ " " ++ pyStr (orDash proto))),
   ("@elb", vDict (elbElbV rpt elb esc sslc sslp sb tport tpt tsc tip rb ua url reqpt verb proto cip cport)),
   ("@timestamp", time)]

/-- `format_alb_match` on a dict holding all ALB fields. -/
theorem format_alb_match_eq (m : Dict)
    (verb url proto time mrp ae tga dn elb esc rb cca cip cport rpt ru sb tr tport tpt tsc tip ty reqpt rct ua : Value)
    (h1 : alookup m "request_verb" = some verb)
    (h2 : alookup m "request_url" = some url)
    (h3 : alookup m "request_proto" = some proto)
    (h4 : alookup m "time" = some time)
    (h5 : alookup m "matched_rule_priority" = some mrp)
    (h6 : alookup m "actions_executed" = some ae)
    (h7 : alookup m "target_group_arn" = some tga)
    (h8 : alookup m "domain_name" = some dn)
    (h9 : alookup m "elb" = some elb)
    (h10 : alookup m "elb_status_code" = some esc)
    (h11 : alookup m "received_bytes" = some rb)
    (h12 : alookup m "chosen_cert_arn" = some cca)
    (h13 : alookup m "client_ip" = some cip)
    (h14 : alookup m "client_port" = some cport)
    (h15 : alookup m "response_processing_time" = some rpt)
    (h16 : alookup m "redirect_url" = some ru)
    (h17 : alookup m "sent_bytes" = some sb)
    (h18 : alookup m "trace_id" = some tr)
    (h19 : alookup m "target_port" = some tport)
    (h20 : alookup m "target_processing_time" = some tpt)
    (h21 : alookup m "target_status_code" = some tsc)
    (h22 : alookup m "target_ip" = some tip)
    (h23 : alookup m "type" = some ty)
    (h24 : alookup m "request_processing_time" = some reqpt)
    (h25 : alookup m "request_creation_time" = some rct)
    (h26 : alookup m "user_agent" = some ua) :
    format_alb_match m = Except.ok
      (albBodyV verb url proto time mrp ae tga dn elb esc rb cca cip cport rpt ru sb tr tport tpt tsc tip ty reqpt rct ua) := by
  simp [format_alb_match, getItem, h1, h2, h3, h4, h5, h6, h7, h8, h9, h10, h11, h12, h13,
    h14, h15, h16, h17, h18, h19, h20, h21, h22, h23, h24, h25, h26,
    Bind.bind, Except.bind, Pure.pure, Except.pure, albBodyV, albAlbV]

/-- `format_elb_match` on a dict holding all ELB fields. -/
theorem format_elb_match_eq (m : Dict)
    (verb url proto rpt elb esc sslc sslp sb tport tpt tsc tip rb ua reqpt cip cport time : Value)
    (h1 : alookup m "request_verb" = some verb)
    (h2 : alookup m "request_url" = some url)
    (h3 : alookup m "request_proto" = some proto)
    (h4 : alookup m "response_processing_time" = some rpt)
    (h5 : alookup m "elb" = some elb)
    (h6 : alookup m "elb_status_code" = some esc)
    (h7 : alookup m "ssl_cipher" = some sslc)
    (h8 : alookup m "ssl_protocol" = some sslp)
    (h9 : alookup m "sent_bytes" = some sb)
    (h10 : alookup m "target_port" = some tport)
    (h11 : alookup m "target_processing_time" = some tpt)
    (h12 : alookup m "target_status_code" = some tsc)
    (h13 : alookup m "target_ip" = some tip)
    (h14 : alookup m "received_bytes" = some rb)
    (h15 : alookup m "user_agent" = some ua)
    (h16 : alookup m "request_processing_time" = some reqpt)
    (h17 : alookup m "client_ip" = some cip)
    (h18 : alookup m "client_port" = some cport)
    (h19 : alookup m "time" = some time) :
    format_elb_match m = Except.ok
      (elbBodyV verb url proto rpt elb esc sslc sslp sb tport tpt tsc tip rb ua reqpt cip cport time) := by
  simp [format_elb_match, getItem, h1, h2, h3, h4, h5, h6, h7, h8, h9, h10, h11, h12, h13,
    h14, h15, h16, h17, h18, h19,
    Bind.bind, Except.bind, Pure.pure, Except.pure, elbBodyV, elbElbV]

/-- Pruning an all-string ALB body changes nothing. -/
theorem prune_albBodyV_str (a1 a2 a3 a4 a5 a6 a7 a8 a9 a10 a11 a12 a13 a14 a15 a16 a17 a18 a19 a20 a21 a22 a23 a24 a25 a26 : String) :
    remove_empty_fields (albBodyV (vStr a1) (vStr a2) (vStr a3) (vStr a4) (vStr a5) (vStr a6)
      (vStr a7) (vStr a8) (vStr a9) (vStr a10) (vStr a11) (vStr a12) (vStr a13) (vStr a14)
      (vStr a15) (vStr a16) (vStr a17) (vStr a18) (vStr a19) (vStr a20) (vStr a21) (vStr a22)
      (vStr a23) (vStr a24) (vStr a25) (vStr a26)) =
    albBodyV (vStr a1) (vStr a2) (vStr a3) (vStr a4) (vStr a5) (vStr a6)
      (vStr a7) (vStr a8) (vStr a9) (vStr a10) (vStr a11) (vStr a12) (vStr a13) (vStr a14)
      (vStr a15) (vStr a16) (vStr a17) (vStr a18) (vStr a19) (vStr a20) (vStr a21) (vStr a22)
      (vStr a23) (vStr a24) (vStr a25) (vStr a26) := by
  simp [remove_empty_fields, albBodyV, albAlbV, pruneEntries, pruneVal, isEmptyVal]

/-- Pruning an all-string ELB body changes nothing. -/
theorem prune_elbBodyV_str (a1 a2 a3 a4 a5 a6 a7 a8 a9 a10 a11 a12 a13 a14 a15 a16 a17 a18 a19 : String) :
    remove_empty_fields (elbBodyV (vStr a1) (vStr a2) (vStr a3) (vStr a4) (vStr a5) (vStr a6)
      (vStr a7) (vStr a8) (vStr a9) (vStr a10) (vStr a11) (vStr a12) (vStr a13) (vStr a14)
      (vStr a15) (vStr a16) (vStr a17) (vStr a18) (vStr a19)) =
    elbBodyV (vStr a1) (vStr a2) (vStr a3) (vStr a4) (vStr a5) (vStr a6)
      (vStr a7) (vStr a8) (vStr a9) (vStr a10) (vStr a11) (vStr a12) (vStr a13) (vStr a14)
      (vStr a15) (vStr a16) (vStr a17) (vStr a18) (vStr a19) := by
  simp [remove_empty_fields, elbBodyV, elbElbV, pruneEntries, pruneVal, isEmptyVal]

/-! ## generate_id case lemmas -/

theorem generate_id_trace_str (entry A : Dict) (t : String)
    (h1 : alookup entry "@alb" = some (vDict A))
    (h2 : alookup A "trace_id" = some (vStr t)) :
    generate_id entry = Except.ok (sha256hex t) := by
  simp [generate_id, containsKey, getItem, getItemV, asJoinStr, h1, h2,
    Bind.bind, Except.bind, Functor.map, Except.map, Pure.pure, Except.pure]

theorem generate_id_trace_missing (entry A : Dict)
    (h1 : alookup entry "@alb" = some (vDict A))
    (h2 : alookup A "trace_id" = none) :
    generate_id entry = Except.error (PyErr.keyError "trace_id") := by
  simp [generate_id, containsKey, getItem, getItemV, asJoinStr, h1, h2,
    Bind.bind, Except.bind, Functor.map, Except.map, Pure.pure, Except.pure]

theorem generate_id_no_objects (entry : Dict)
    (h1 : alookup entry "@alb" = none)
    (h2 : alookup entry "@elb" = none) :
    generate_id entry = Except.error (PyErr.keyError "@elb") := by
  simp [generate_id, containsKey, getItem, getItemV, asJoinStr, h1, h2,
    Bind.bind, Except.bind, Functor.map, Except.map, Pure.pure, Except.pure]

/-- When an ALB-matched line's coercion raises `ValueError`, the exception
is caught and the line still yields a record built from the raw
(uncoerced) captures; in particular the numeric `received_bytes` slot of
`@alb` holds the raw matched string and the id is the digest of the raw
trace-id capture. -/
theorem lineStep_alb_rawpath (name line : String) (st : PState)
    (g : List (String × String)) (e : PyErr)
    (hm : rxMatch ALB_LOG_LINE_REGEX (pyStrip line) = some g)
    (hc : coerce_match_types g = Except.error e) :
    ∃ t doc, alookup g "trace_id" = some t ∧
      lineStep name st line = LineOut.next
        { lines_processed := st.lines_processed + 1,
          lines_errored := st.lines_errored,
          outbox := st.outbox ++ [(sha256hex t, doc)] } ∧
      ∃ albd, alookup doc "@alb" = some (vDict albd) ∧
        alookup albd "received_bytes" = (alookup g "received_bytes").map vStr := by
  have hkeys := alb_match_keys _ g hm
  have exL : ∀ f : String, f ∈ albNames → ∃ s, alookup g f = some s := fun f hf =>
    Option.isSome_iff_exists.mp (alookup_isSome_of_mem_keys g f (by rw [hkeys]; exact hf))
  obtain ⟨s1, h1⟩ := exL "request_verb" (by decide)
  obtain ⟨s2, h2⟩ := exL "request_url" (by decide)
  obtain ⟨s3, h3⟩ := exL "request_proto" (by decide)
  obtain ⟨s4, h4⟩ := exL "time" (by decide)
  obtain ⟨s5, h5⟩ := exL "matched_rule_priority" (by decide)
  obtain ⟨s6, h6⟩ := exL "actions_executed" (by decide)
  obtain ⟨s7, h7⟩ := exL "target_group_arn" (by decide)
  obtain ⟨s8, h8⟩ := exL "domain_name" (by decide)
  obtain ⟨s9, h9⟩ := exL "elb" (by decide)
  obtain ⟨s10, h10⟩ := exL "elb_status_code" (by decide)
  obtain ⟨s11, h11⟩ := exL "received_bytes" (by decide)
  obtain ⟨s12, h12⟩ := exL "chosen_cert_arn" (by decide)
  obtain ⟨s13, h13⟩ := exL "client_ip" (by decide)
  obtain ⟨s14, h14⟩ := exL "client_port" (by decide)
  obtain ⟨s15, h15⟩ := exL "response_processing_time" (by decide)
  obtain ⟨s16, h16⟩ := exL "redirect_url" (by decide)
  obtain ⟨s17, h17⟩ := exL "sent_bytes" (by decide)
  obtain ⟨s18, h18⟩ := exL "trace_id" (by decide)
  obtain ⟨s19, h19⟩ := exL "target_port" (by decide)
  obtain ⟨s20, h20⟩ := exL "target_processing_time" (by decide)
  obtain ⟨s21, h21⟩ := exL "target_status_code" (by decide)
  obtain ⟨s22, h22⟩ := exL "target_ip" (by decide)
  obtain ⟨s23, h23⟩ := exL "type" (by decide)
  obtain ⟨s24, h24⟩ := exL "request_processing_time" (by decide)
  obtain ⟨s25, h25⟩ := exL "request_creation_time" (by decide)
  obtain ⟨s26, h26⟩ := exL "user_agent" (by decide)
  have r1 : alookup (rawDict g) "request_verb" = some (vStr s1) := by
    rw [alookup_rawDict, h1]; rfl
  have r2 : alookup (rawDict g) "request_url" = some (vStr s2) := by
    rw [alookup_rawDict, h2]; rfl
  have r3 : alookup (rawDict g) "request_proto" = some (vStr s3) := by
    rw [alookup_rawDict, h3]; rfl
  have r4 : alookup (rawDict g) "time" = some (vStr s4) := by
    rw [alookup_rawDict, h4]; rfl
  have r5 : alookup (rawDict g) "matched_rule_priority" = some (vStr s5) := by
    rw [alookup_rawDict, h5]; rfl
  have r6 : alookup (rawDict g) "actions_executed" = some (vStr s6) := by
    rw [alookup_rawDict, h6]; rfl
  have r7 : alookup (rawDict g) "target_group_arn" = some (vStr s7) := by
    rw [alookup_rawDict, h7]; rfl
  have r8 : alookup (rawDict g) "domain_name" = some (vStr s8) := by
    rw [alookup_rawDict, h8]; rfl
  have r9 : alookup (rawDict g) "elb" = some (vStr s9) := by
    rw [alookup_rawDict, h9]; rfl
  have r10 : alookup (rawDict g) "elb_status_code" = some (vStr s10) := by
    rw [alookup_rawDict, h10]; rfl
  have r11 : alookup (rawDict g) "received_bytes" = some (vStr s11) := by
    rw [alookup_rawDict, h11]; rfl
  have r12 : alookup (rawDict g) "chosen_cert_arn" = some (vStr s12) := by
    rw [alookup_rawDict, h12]; rfl
  have r13 : alookup (rawDict g) "client_ip" = some (vStr s13) := by
    rw [alookup_rawDict, h13]; rfl
  have r14 : alookup (rawDict g) "client_port" = some (vStr s14) := by
    rw [alookup_rawDict, h14]; rfl
  have r15 : alookup (rawDict g) "response_processing_time" = some (vStr s15) := by
    rw [alookup_rawDict, h15]; rfl
  have r16 : alookup (rawDict g) "redirect_url" = some (vStr s16) := by
    rw [alookup_rawDict, h16]; rfl
  have r17 : alookup (rawDict g) "sent_bytes" = some (vStr s17) := by
    rw [alookup_rawDict, h17]; rfl
  have r18 : alookup (rawDict g) "trace_id" = some (vStr s18) := by
    rw [alookup_rawDict, h18]; rfl
  have r19 : alookup (rawDict g) "target_port" = some (vStr s19) := by
    rw [alookup_rawDict, h19]; rfl
  have r20 : alookup (rawDict g) "target_processing_time" = some (vStr s20) := by
    rw [alookup_rawDict, h20]; rfl
  have r21 : alookup (rawDict g) "target_status_code" = some (vStr s21) := by
    rw [alookup_rawDict, h21]; rfl
  have r22 : alookup (rawDict g) "target_ip" = some (vStr s22) := by
    rw [alookup_rawDict, h22]; rfl
  have r23 : alookup (rawDict g) "type" = some (vStr s23) := by
    rw [alookup_rawDict, h23]; rfl
  have r24 : alookup (rawDict g) "request_processing_time" = some (vStr s24) := by
    rw [alookup_rawDict, h24]; rfl
  have r25 : alookup (rawDict g) "request_creation_time" = some (vStr s25) := by
    rw [alookup_rawDict, h25]; rfl
  have r26 : alookup (rawDict g) "user_agent" = some (vStr s26) := by
    rw [alookup_rawDict, h26]; rfl
  have hfmt := format_alb_match_eq (rawDict g) _ _ _ _ _ _ _ _ _ _ _ _ _ _ _ _ _ _ _ _ _ _ _ _ _ _
    r1 r2 r3 r4 r5 r6 r7 r8 r9 r10 r11 r12 r13 r14 r15 r16 r17 r18 r19 r20 r21 r22 r23 r24 r25 r26
  have hpr := prune_albBodyV_str s1 s2 s3 s4 s5 s6 s7 s8 s9 s10 s11 s12 s13 s14 s15 s16 s17 s18 s19 s20 s21 s22 s23 s24 s25 s26
  have halb2 : alookup (add_metadata (albBodyV (vStr s1) (vStr s2) (vStr s3) (vStr s4) (vStr s5) (vStr s6) (vStr s7) (vStr s8) (vStr s9) (vStr s10) (vStr s11) (vStr s12) (vStr s13) (vStr s14) (vStr s15) (vStr s16) (vStr s17) (vStr s18) (vStr s19) (vStr s20) (vStr s21) (vStr s22) (vStr s23) (vStr s24) (vStr s25) (vStr s26)) (pyStrip line) name) "@alb" =
      some (vDict (albAlbV (vStr s5) (vStr s6) (vStr s7) (vStr s8) (vStr s9) (vStr s10) (vStr s11) (vStr s12) (vStr s13) (vStr s14) (vStr s15) (vStr s16) (vStr s17) (vStr s18) (vStr s19) (vStr s20) (vStr s21) (vStr s22) (vStr s23) (vStr s1) (vStr s2) (vStr s3) (vStr s24) (vStr s25) (vStr s26))) := by
    rw [alookup_add_metadata _ _ _ _ (by decide)]
    simp [albBodyV, alookup]
  have htr2 : alookup (albAlbV (vStr s5) (vStr s6) (vStr s7) (vStr s8) (vStr s9) (vStr s10) (vStr s11) (vStr s12) (vStr s13) (vStr s14) (vStr s15) (vStr s16) (vStr s17) (vStr s18) (vStr s19) (vStr s20) (vStr s21) (vStr s22) (vStr s23) (vStr s1) (vStr s2) (vStr s3) (vStr s24) (vStr s25) (vStr s26)) "trace_id" = some (vStr s18) := by
    simp [albAlbV, alookup]
  have hrb2 : alookup (albAlbV (vStr s5) (vStr s6) (vStr s7) (vStr s8) (vStr s9) (vStr s10) (vStr s11) (vStr s12) (vStr s13) (vStr s14) (vStr s15) (vStr s16) (vStr s17) (vStr s18) (vStr s19) (vStr s20) (vStr s21) (vStr s22) (vStr s23) (vStr s1) (vStr s2) (vStr s3) (vStr s24) (vStr s25) (vStr s26)) "received_bytes" = some (vStr s11) := by
    simp [albAlbV, alookup]
  have hgen := generate_id_trace_str _ _ s18 halb2 htr2
  have hstep : lineStep name st line = LineOut.next
      { lines_processed := st.lines_processed + 1,
        lines_errored := st.lines_errored,
        outbox := st.outbox ++ [(sha256hex s18,
          add_metadata (albBodyV (vStr s1) (vStr s2) (vStr s3) (vStr s4) (vStr s5) (vStr s6) (vStr s7) (vStr s8) (vStr s9) (vStr s10) (vStr s11) (vStr s12) (vStr s13) (vStr s14) (vStr s15) (vStr s16) (vStr s17) (vStr s18) (vStr s19) (vStr s20) (vStr s21) (vStr s22) (vStr s23) (vStr s24) (vStr s25) (vStr s26)) (pyStrip line) name)] } := by
    simp only [lineStep, hm]
    simp only [lineBody, hc, if_true]
    rw [hfmt]
    simp only [hpr, hgen]
  refine ⟨s18, _, h18, hstep, _, halb2, ?_⟩
  rw [h11]
  exact hrb2


theorem generate_id_elb_parts (entry E D C : Dict) (idv ipv tsv : String) (portv rbv : Value)
    (h0 : alookup entry "@alb" = none)
    (h1 : alookup entry "@elb" = some (vDict E))
    (h2 : alookup E "elb" = some (vDict D))
    (h3 : alookup D "id" = some (vStr idv))
    (h4 : alookup E "client" = some (vDict C))
    (h5 : alookup C "ip" = some (vStr ipv))
    (h6 : alookup C "port" = some portv)
    (h7 : alookup entry "@timestamp" = some (vStr tsv))
    (h8 : alookup E "received_bytes" = some rbv) :
    generate_id entry = Except.ok
      (sha256hex (idv ++ ":" ++ ipv ++ ":" ++ pyStr portv ++ ":" ++ tsv ++ ":" ++ pyStr rbv)) := by
  simp [generate_id, containsKey, getItem, getItemV, asJoinStr,
    h0, h1, h2, h3, h4, h5, h6, h7, h8,
    Bind.bind, Except.bind, Functor.map, Except.map, Pure.pure, Except.pure]

/-- ELB analogue of `lineStep_alb_rawpath`: a caught coercion failure still
yields a record from the raw captures. -/
theorem lineStep_elb_rawpath (name line : String) (st : PState)
    (g : List (String × String)) (e : PyErr)
    (hma : rxMatch ALB_LOG_LINE_REGEX (pyStrip line) = none)
    (hme : rxMatch ELB_LOG_LINE_REGEX (pyStrip line) = some g)
    (hc : coerce_match_types g = Except.error e) :
    ∃ id_ doc, lineStep name st line = LineOut.next
        { lines_processed := st.lines_processed + 1,
          lines_errored := st.lines_errored,
          outbox := st.outbox ++ [(id_, doc)] } ∧
      ∃ elbd, alookup doc "@elb" = some (vDict elbd) ∧
        alookup elbd "received_bytes" = (alookup g "received_bytes").map vStr := by
  have hkeys := elb_match_keys _ g hme
  have exL : ∀ f : String, f ∈ elbNames → ∃ s, alookup g f = some s := fun f hf =>
    Option.isSome_iff_exists.mp (alookup_isSome_of_mem_keys g f (by rw [hkeys]; exact hf))
  obtain ⟨s1, h1⟩ := exL "request_verb" (by decide)
  obtain ⟨s2, h2⟩ := exL "request_url" (by decide)
  obtain ⟨s3, h3⟩ := exL "request_proto" (by decide)
  obtain ⟨s4, h4⟩ := exL "response_processing_time" (by decide)
  obtain ⟨s5, h5⟩ := exL "elb" (by decide)
  obtain ⟨s6, h6⟩ := exL "elb_status_code" (by decide)
  obtain ⟨s7, h7⟩ := exL "ssl_cipher" (by decide)
  obtain ⟨s8, h8⟩ := exL "ssl_protocol" (by decide)
  obtain ⟨s9, h9⟩ := exL "sent_bytes" (by decide)
  obtain ⟨s10, h10⟩ := exL "target_port" (by decide)
  obtain ⟨s11, h11⟩ := exL "target_processing_time" (by decide)
  obtain ⟨s12, h12⟩ := exL "target_status_code" (by decide)
  obtain ⟨s13, h13⟩ := exL "target_ip" (by decide)
  obtain ⟨s14, h14⟩ := exL "received_bytes" (by decide)
  obtain ⟨s15, h15⟩ := exL "user_agent" (by decide)
  obtain ⟨s16, h16⟩ := exL "request_processing_time" (by decide)
  obtain ⟨s17, h17⟩ := exL "client_ip" (by decide)
  obtain ⟨s18, h18⟩ := exL "client_port" (by decide)
  obtain ⟨s19, h19⟩ := exL "time" (by decide)
  have r1 : alookup (rawDict g) "request_verb" = some (vStr s1) := by
    rw [alookup_rawDict, h1]; rfl
  have r2 : alookup (rawDict g) "request_url" = some (vStr s2) := by
    rw [alookup_rawDict, h2]; rfl
  have r3 : alookup (rawDict g) "request_proto" = some (vStr s3) := by
    rw [alookup_rawDict, h3]; rfl
  have r4 : alookup (rawDict g) "response_processing_time" = some (vStr s4) := by
    rw [alookup_rawDict, h4]; rfl
  have r5 : alookup (rawDict g) "elb" = some (vStr s5) := by
    rw [alookup_rawDict, h5]; rfl
  have r6 : alookup (rawDict g) "elb_status_code" = some (vStr s6) := by
    rw [alookup_rawDict, h6]; rfl
  have r7 : alookup (rawDict g) "ssl_cipher" = some (vStr s7) := by
    rw [alookup_rawDict, h7]; rfl
  have r8 : alookup (rawDict g) "ssl_protocol" = some (vStr s8) := by
    rw [alookup_rawDict, h8]; rfl
  have r9 : alookup (rawDict g) "sent_bytes" = some (vStr s9) := by
    rw [alookup_rawDict, h9]; rfl
  have r10 : alookup (rawDict g) "target_port" = some (vStr s10) := by
    rw [alookup_rawDict, h10]; rfl
  have r11 : alookup (rawDict g) "target_processing_time" = some (vStr s11) := by
    rw [alookup_rawDict, h11]; rfl
  have r12 : alookup (rawDict g) "target_status_code" = some (vStr s12) := by
    rw [alookup_rawDict, h12]; rfl
  have r13 : alookup (rawDict g) "target_ip" = some (vStr s13) := by
    rw [alookup_rawDict, h13]; rfl
  have r14 : alookup (rawDict g) "received_bytes" = some (vStr s14) := by
    rw [alookup_rawDict, h14]; rfl
  have r15 : alookup (rawDict g) "user_agent" = some (vStr s15) := by
    rw [alookup_rawDict, h15]; rfl
  have r16 : alookup (rawDict g) "request_processing_time" = some (vStr s16) := by
    rw [alookup_rawDict, h16]; rfl
  have r17 : alookup (rawDict g) "client_ip" = some (vStr s17) := by
    rw [alookup_rawDict, h17]; rfl
  have r18 : alookup (rawDict g) "client_port" = some (vStr s18) := by
    rw [alookup_rawDict, h18]; rfl
  have r19 : alookup (rawDict g) "time" = some (vStr s19) := by
    rw [alookup_rawDict, h19]; rfl
  have hfmt := format_elb_match_eq (rawDict g) _ _ _ _ _ _ _ _ _ _ _ _ _ _ _ _ _ _ _
    r1 r2 r3 r4 r5 r6 r7 r8 r9 r10 r11 r12 r13 r14 r15 r16 r17 r18 r19
  have hpr := prune_elbBodyV_str s1 s2 s3 s4 s5 s6 s7 s8 s9 s10 s11 s12 s13 s14 s15 s16 s17 s18 s19
  have halb2 : alookup (add_metadata (elbBodyV (vStr s1) (vStr s2) (vStr s3) (vStr s4) (vStr s5) (vStr s6) (vStr s7) (vStr s8) (vStr s9) (vStr s10) (vStr s11) (vStr s12) (vStr s13) (vStr s14) (vStr s15) (vStr s16) (vStr s17) (vStr s18) (vStr s19)) (pyStrip line) name) "@alb" = none := by
    rw [alookup_add_metadata _ _ _ _ (by decide)]
    simp [elbBodyV, alookup]
  have helb2 : alookup (add_metadata (elbBodyV (vStr s1) (vStr s2) (vStr s3) (vStr s4) (vStr s5) (vStr s6) (vStr s7) (vStr s8) (vStr s9) (vStr s10) (vStr s11) (vStr s12) (vStr s13) (vStr s14) (vStr s15) (vStr s16) (vStr s17) (vStr s18) (vStr s19)) (pyStrip line) name) "@elb" =
      some (vDict (elbElbV (vStr s4) (vStr s5) (vStr s6) (vStr s7) (vStr s8) (vStr s9) (vStr s10) (vStr s11) (vStr s12) (vStr s13) (vStr s14) (vStr s15) (vStr s2) (vStr s16) (vStr s1) (vStr s3) (vStr s17) (vStr s18))) := by
    rw [alookup_add_metadata _ _ _ _ (by decide)]
    simp [elbBodyV, alookup]
  have hts2 : alookup (add_metadata (elbBodyV (vStr s1) (vStr s2) (vStr s3) (vStr s4) (vStr s5) (vStr s6) (vStr s7) (vStr s8) (vStr s9) (vStr s10) (vStr s11) (vStr s12) (vStr s13) (vStr s14) (vStr s15) (vStr s16) (vStr s17) (vStr s18) (vStr s19)) (pyStrip line) name) "@timestamp" =
      some (vStr s19) := by
    rw [alookup_add_metadata _ _ _ _ (by decide)]
    simp [elbBodyV, alookup]
  have hrb2 : alookup (elbElbV (vStr s4) (vStr s5) (vStr s6) (vStr s7) (vStr s8) (vStr s9) (vStr s10) (vStr s11) (vStr s12) (vStr s13) (vStr s14) (vStr s15) (vStr s2) (vStr s16) (vStr s1) (vStr s3) (vStr s17) (vStr s18)) "received_bytes" = some (vStr s14) := by
    simp [elbElbV, alookup]
  have hgen := generate_id_elb_parts
    (add_metadata (elbBodyV (vStr s1) (vStr s2) (vStr s3) (vStr s4) (vStr s5) (vStr s6) (vStr s7) (vStr s8) (vStr s9) (vStr s10) (vStr s11) (vStr s12) (vStr s13) (vStr s14) (vStr s15) (vStr s16) (vStr s17) (vStr s18) (vStr s19)) (pyStrip line) name)
    (elbElbV (vStr s4) (vStr s5) (vStr s6) (vStr s7) (vStr s8) (vStr s9) (vStr s10) (vStr s11) (vStr s12) (vStr s13) (vStr s14) (vStr s15) (vStr s2) (vStr s16) (vStr s1) (vStr s3) (vStr s17) (vStr s18))
    [("id", vStr s5), ("status_code", vStr s6)]
    [("ip", vStr s17), ("port", vStr s18)]
    s5 s17 s19 (vStr s18) (vStr s14)
    halb2 helb2 (by simp [elbElbV, alookup]) (by simp [alookup])
    (by simp [elbElbV, alookup]) (by simp [alookup]) (by simp [alookup]) hts2 hrb2
  have hstep : lineStep name st line = LineOut.next
      { lines_processed := st.lines_processed + 1,
        lines_errored := st.lines_errored,
        outbox := st.outbox ++ [(sha256hex (s5 ++ ":" ++ s17 ++ ":" ++ pyStr (vStr s18) ++ ":" ++ s19 ++ ":" ++ pyStr (vStr s14)),
          add_metadata (elbBodyV (vStr s1) (vStr s2) (vStr s3) (vStr s4) (vStr s5) (vStr s6) (vStr s7) (vStr s8) (vStr s9) (vStr s10) (vStr s11) (vStr s12) (vStr s13) (vStr s14) (vStr s15) (vStr s16) (vStr s17) (vStr s18) (vStr s19)) (pyStrip line) name)] } := by
    simp only [lineStep, hma, hme]
    simp only [lineBody, hc, if_false, Bool.false_eq_true]
    rw [hfmt]
    simp only [hpr, hgen]
  refine ⟨_, _, hstep, _, helb2, ?_⟩
  rw [h14]
  exact hrb2

/-- C10 core: an ALB line whose trace-id capture coerces to null loses its
`trace_id` binding to pruning, and `generate_id` then raises `KeyError`
(for `"trace_id"`, or for `"@elb"` in the degenerate case where the whole
`@alb` object pruned away); the exception escapes the per-line step and no
record is enqueued. -/
theorem lineStep_alb_trace_null (name line : String) (st : PState)
    (g : List (String × String)) (d : Dict)
    (hm : rxMatch ALB_LOG_LINE_REGEX (pyStrip line) = some g)
    (htr : alookup g "trace_id" = some "-" ∨ alookup g "trace_id" = some "")
    (hc : coerce_match_types g = Except.ok d) :
    ∃ k, lineStep name st line = LineOut.exc (PyErr.keyError k) := by
  have hc' : coerceFields ALB_LOGS_FIELD_TYPES (rawDict g) = Except.ok d := hc
  have hkeys := alb_match_keys _ g hm
  have hdkeys : d.map Prod.fst = albNames := by
    rw [coerceFields_map_fst _ _ _ hc', rawDict_map_fst, hkeys]
  have exL : ∀ f : String, f ∈ albNames → ∃ v, alookup d f = some v := fun f hf =>
    Option.isSome_iff_exists.mp (alookup_isSome_of_mem_keys d f (by rw [hdkeys]; exact hf))
  have htrd : alookup d "trace_id" = some vNull := by
    rcases htr with h | h
    · exact coerceFields_null _ _ _ _ Converter.cstr "-" (by decide) (by decide)
        (by rw [alookup_rawDict, h]; rfl) (Or.inl rfl) hc'
    · exact coerceFields_null _ _ _ _ Converter.cstr "" (by decide) (by decide)
        (by rw [alookup_rawDict, h]; rfl) (Or.inr rfl) hc'
  obtain ⟨v1, h1⟩ := exL "request_verb" (by decide)
  obtain ⟨v2, h2⟩ := exL "request_url" (by decide)
  obtain ⟨v3, h3⟩ := exL "request_proto" (by decide)
  obtain ⟨v4, h4⟩ := exL "time" (by decide)
  obtain ⟨v5, h5⟩ := exL "matched_rule_priority" (by decide)
  obtain ⟨v6, h6⟩ := exL "actions_executed" (by decide)
  obtain ⟨v7, h7⟩ := exL "target_group_arn" (by decide)
  obtain ⟨v8, h8⟩ := exL "domain_name" (by decide)
  obtain ⟨v9, h9⟩ := exL "elb" (by decide)
  obtain ⟨v10, h10⟩ := exL "elb_status_code" (by decide)
  obtain ⟨v11, h11⟩ := exL "received_bytes" (by decide)
  obtain ⟨v12, h12⟩ := exL "chosen_cert_arn" (by decide)
  obtain ⟨v13, h13⟩ := exL "client_ip" (by decide)
  obtain ⟨v14, h14⟩ := exL "client_port" (by decide)
  obtain ⟨v15, h15⟩ := exL "response_processing_time" (by decide)
  obtain ⟨v16, h16⟩ := exL "redirect_url" (by decide)
  obtain ⟨v17, h17⟩ := exL "sent_bytes" (by decide)
  obtain ⟨v19, h19⟩ := exL "target_port" (by decide)
  obtain ⟨v20, h20⟩ := exL "target_processing_time" (by decide)
  obtain ⟨v21, h21⟩ := exL "target_status_code" (by decide)
  obtain ⟨v22, h22⟩ := exL "target_ip" (by decide)
  obtain ⟨v23, h23⟩ := exL "type" (by decide)
  obtain ⟨v24, h24⟩ := exL "request_processing_time" (by decide)
  obtain ⟨v25, h25⟩ := exL "request_creation_time" (by decide)
  obtain ⟨v26, h26⟩ := exL "user_agent" (by decide)
  have hfmt := format_alb_match_eq d _ _ _ _ _ _ _ _ _ _ _ _ _ _ _ _ _ _ _ _ _ _ _ _ _ _
    h1 h2 h3 h4 h5 h6 h7 h8 h9 h10 h11 h12 h13 h14 h15 h16 h17 htrd h19 h20 h21 h22 h23 h24 h25 h26
  have nodA : ((albAlbV v5 v6 v7 v8 v9 v10 v11 v12 v13 v14 v15 v16 v17 vNull v19 v20 v21 v22 v23 v1 v2 v3 v24 v25 v26).map Prod.fst).Nodup := by
    rw [show (albAlbV v5 v6 v7 v8 v9 v10 v11 v12 v13 v14 v15 v16 v17 vNull v19 v20 v21 v22 v23 v1 v2 v3 v24 v25 v26).map Prod.fst = ["matched_rule_priority", "actions_executed", "target_group_arn", "domain_name", "alb", "received_bytes", "chosen_cert_arn", "client", "response", "redirect_url", "sent_bytes", "trace_id", "target", "type", "request", "user_agent"] from rfl]
    decide
  have nodBody : ((albBodyV v1 v2 v3 v4 v5 v6 v7 v8 v9 v10 v11 v12 v13 v14 v15 v16 v17 vNull v19 v20 v21 v22 v23 v24 v25 v26).map Prod.fst).Nodup := by
    rw [show (albBodyV v1 v2 v3 v4 v5 v6 v7 v8 v9 v10 v11 v12 v13 v14 v15 v16 v17 vNull v19 v20 v21 v22 v23 v24 v25 v26).map Prod.fst = ["@message", "@timestamp", "@alb"] from rfl]
    decide
  have hBodyAlb : alookup (albBodyV v1 v2 v3 v4 v5 v6 v7 v8 v9 v10 v11 v12 v13 v14 v15 v16 v17 vNull v19 v20 v21 v22 v23 v24 v25 v26) "@alb" =
      some (vDict (albAlbV v5 v6 v7 v8 v9 v10 v11 v12 v13 v14 v15 v16 v17 vNull v19 v20 v21 v22 v23 v1 v2 v3 v24 v25 v26)) := by
    simp [albBodyV, alookup]
  have hBodyElb : alookup (albBodyV v1 v2 v3 v4 v5 v6 v7 v8 v9 v10 v11 v12 v13 v14 v15 v16 v17 vNull v19 v20 v21 v22 v23 v24 v25 v26) "@elb" = none := by
    simp [albBodyV, alookup]
  have hATr : alookup (pruneEntries (albAlbV v5 v6 v7 v8 v9 v10 v11 v12 v13 v14 v15 v16 v17 vNull v19 v20 v21 v22 v23 v1 v2 v3 v24 v25 v26)) "trace_id" = none := by
    rw [alookup_pruneEntries _ _ nodA]
    rw [show alookup (albAlbV v5 v6 v7 v8 v9 v10 v11 v12 v13 v14 v15 v16 v17 vNull v19 v20 v21 v22 v23 v1 v2 v3 v24 v25 v26) "trace_id" = some vNull from by simp [albAlbV, alookup]]
    simp [pruneVal, isEmptyVal]
  cases hPA : pruneEntries (albAlbV v5 v6 v7 v8 v9 v10 v11 v12 v13 v14 v15 v16 v17 vNull v19 v20 v21 v22 v23 v1 v2 v3 v24 v25 v26) with
  | nil =>
    have hD1Alb : alookup (pruneEntries (albBodyV v1 v2 v3 v4 v5 v6 v7 v8 v9 v10 v11 v12 v13 v14 v15 v16 v17 vNull v19 v20 v21 v22 v23 v24 v25 v26)) "@alb" = none := by
      rw [alookup_pruneEntries _ _ nodBody, hBodyAlb]
      simp only [pruneVal]
      rw [hPA]
      simp [isEmptyVal]
    have hD1Elb : alookup (pruneEntries (albBodyV v1 v2 v3 v4 v5 v6 v7 v8 v9 v10 v11 v12 v13 v14 v15 v16 v17 vNull v19 v20 v21 v22 v23 v24 v25 v26)) "@elb" = none := by
      rw [alookup_pruneEntries _ _ nodBody, hBodyElb]
    have hgen := generate_id_no_objects
      (add_metadata (pruneEntries (albBodyV v1 v2 v3 v4 v5 v6 v7 v8 v9 v10 v11 v12 v13 v14 v15 v16 v17 vNull v19 v20 v21 v22 v23 v24 v25 v26)) (pyStrip line) name)
      (by rw [alookup_add_metadata _ _ _ _ (by decide)]; exact hD1Alb)
      (by rw [alookup_add_metadata _ _ _ _ (by decide)]; exact hD1Elb)
    refine ⟨"@elb", ?_⟩
    simp only [lineStep, hm]
    simp only [lineBody, hc, if_true]
    rw [hfmt]
    simp only [remove_empty_fields, hgen]
  | cons kv rest =>
    have hD1Alb : alookup (pruneEntries (albBodyV v1 v2 v3 v4 v5 v6 v7 v8 v9 v10 v11 v12 v13 v14 v15 v16 v17 vNull v19 v20 v21 v22 v23 v24 v25 v26)) "@alb" =
        some (vDict (kv :: rest)) := by
      rw [alookup_pruneEntries _ _ nodBody, hBodyAlb]
      simp only [pruneVal]
      rw [hPA]
      simp [isEmptyVal]
    have hATr' : alookup (kv :: rest) "trace_id" = none := by
      rw [← hPA]
      exact hATr
    have hgen := generate_id_trace_missing
      (add_metadata (pruneEntries (albBodyV v1 v2 v3 v4 v5 v6 v7 v8 v9 v10 v11 v12 v13 v14 v15 v16 v17 vNull v19 v20 v21 v22 v23 v24 v25 v26)) (pyStrip line) name) (kv :: rest)
      (by rw [alookup_add_metadata _ _ _ _ (by decide)]; exact hD1Alb) hATr'
    refine ⟨"trace_id", ?_⟩
    simp only [lineStep, hm]
    simp only [lineBody, hc, if_true]
    rw [hfmt]
    simp only [remove_empty_fields, hgen]

/-- C6 (amended): if every line before the bad one completes normally, a
line matching neither grammar increments lines-errored exactly once, gets
no record, and aborts the rest of the batch (the call returns with the
state reached so far, errored bumped once, outbox untouched). -/
theorem claim_C6_amended (name : String) (st st' : PState) (pre post : List String)
    (bad : String)
    (hpre : foldOkLines name pre st = some st')
    (hnm1 : rxMatch ALB_LOG_LINE_REGEX (pyStrip bad) = none)
    (hnm2 : rxMatch ELB_LOG_LINE_REGEX (pyStrip bad) = none) :
    parse_alb_logs name st (pre ++ bad :: post) =
      Except.ok { st' with lines_errored := st'.lines_errored + 1 } := by
  induction pre generalizing st with
  | nil =>
    simp only [foldOkLines] at hpre
    injection hpre with hpre
    subst hpre
    simp only [List.nil_append, parse_alb_logs]
    simp only [lineStep, hnm1, hnm2]
  | cons l rest ih =>
    simp only [foldOkLines] at hpre
    cases hls : lineStep name st l with
    | next st1 =>
      rw [hls] at hpre
      simpa [parse_alb_logs, hls, List.cons_append] using ih _ hpre
    | bail st1 =>
      rw [hls] at hpre
      simp at hpre
    | exc e =>
      rw [hls] at hpre
      simp at hpre

/-- A well-formed ALB line whose trace-id field is the token `-`. -/
def albLineDashTrace : String :=
  String.append "http 2019-05-10T12:00:00.123456Z my-alb 192.168.0.1:54321 10.0.0.1:80 0.001 0.002 0.003 200 200 100 512 " "\"GET https://example.com:443/ HTTP/1.1\" \"curl/7.61.1\" ECDHE-RSA-AES128-GCM-SHA256 TLSv1.2 arn:aws:elasticloadbalancing:tg \"-\" \"example.com\" \"arn:cert\" 0 2019-05-10T12:00:00.120000Z \"forward\" \"-\""

/-- An ALB line whose elb-status-code field `2-0` defeats `int()`. -/
def albLineBadStatus : String :=
  String.append "http 2019-05-10T12:00:00.123456Z my-alb 192.168.0.1:54321 10.0.0.1:80 0.001 0.002 0.003 2-0 200 100 512 " "\"GET https://example.com:443/ HTTP/1.1\" \"curl/7.61.1\" ECDHE-RSA-AES128-GCM-SHA256 TLSv1.2 arn:aws:elasticloadbalancing:tg \"Root=1-abc\" \"example.com\" \"arn:cert\" 0 2019-05-10T12:00:00.120000Z \"forward\" \"-\""

/-- A classic ELB line whose elb-status-code field `2-0` defeats `int()`. -/
def elbLineBadStatus : String :=
  "2019-05-10T12:00:00.123456Z my-elb 192.168.0.1:54321 10.0.0.1:80 0.001 0.002 0.003 2-0 200 100 512 \"GET https://example.com:443/ HTTP/1.1\" \"curl/7.61.1\" ECDHE-RSA-AES128-GCM-SHA256 TLSv1.2"

set_option maxRecDepth 1000000 in
/-- C6 counterexample: a batch whose first line raises (the dash-trace-id
`KeyError` of C10) never reaches the unmatchable second line, so
lines-errored is not incremented for it and the call raises instead of
returning. -/
theorem claim_C6_counterexample :
    parse_alb_logs "f.log" ⟨0, 0, []⟩ [albLineDashTrace, "garbage"] =
      Except.error (PyErr.keyError "trace_id") ∧
    rxMatch ALB_LOG_LINE_REGEX (pyStrip "garbage") = none ∧
    rxMatch ELB_LOG_LINE_REGEX (pyStrip "garbage") = none ∧
    ¬ ∃ st', parse_alb_logs "f.log" ⟨0, 0, []⟩ [albLineDashTrace, "garbage"] =
      Except.ok st' := by
  refine ⟨by rfl, by rfl, by rfl, ?_⟩
  intro ⟨st', h⟩
  rw [show parse_alb_logs "f.log" ⟨0, 0, []⟩ [albLineDashTrace, "garbage"] =
    Except.error (PyErr.keyError "trace_id") from by rfl] at h
  cases h

set_option maxRecDepth 1000000 in
/-- Witness for C6's amended theorem: an empty prefix, an unmatchable line
and one following line that is never processed. -/
theorem claim_C6_witness :
    foldOkLines "f.log" [] ⟨3, 4, []⟩ = some ⟨3, 4, []⟩ ∧
    parse_alb_logs "f.log" ⟨3, 4, []⟩ ([] ++ "garbage" :: ["later line"]) =
      Except.ok ⟨3, 4 + 1, []⟩ :=
  ⟨rfl, claim_C6_amended "f.log" ⟨3, 4, []⟩ ⟨3, 4, []⟩ [] ["later line"] "garbage"
    rfl (by rfl) (by rfl)⟩

/-- C9: (1) for every field in the converter table, a matched value of `-`
or `""` coerces to null; (2, 3) a coercion failure on a matched line (ALB
or ELB) is caught: the line still produces exactly one record, built from
the raw uncoerced captures (witnessed by the numeric `received_bytes` slot
holding the raw matched string). -/
theorem claim_C9_field_coercion :
    (∀ (f : String) (c : Converter) (g : List (String × String)) (d : Dict) (s : String),
      (f, c) ∈ ALB_LOGS_FIELD_TYPES → alookup g f = some s → (s = "-" ∨ s = "") →
      coerce_match_types g = Except.ok d → alookup d f = some vNull) ∧
    (∀ (name line : String) (st : PState) (g : List (String × String)) (e : PyErr),
      rxMatch ALB_LOG_LINE_REGEX (pyStrip line) = some g →
      coerce_match_types g = Except.error e →
      ∃ t doc, alookup g "trace_id" = some t ∧
        lineStep name st line = LineOut.next
          { lines_processed := st.lines_processed + 1,
            lines_errored := st.lines_errored,
            outbox := st.outbox ++ [(sha256hex t, doc)] } ∧
        ∃ albd, alookup doc "@alb" = some (vDict albd) ∧
          alookup albd "received_bytes" = (alookup g "received_bytes").map vStr) ∧
    (∀ (name line : String) (st : PState) (g : List (String × String)) (e : PyErr),
      rxMatch ALB_LOG_LINE_REGEX (pyStrip line) = none →
      rxMatch ELB_LOG_LINE_REGEX (pyStrip line) = some g →
      coerce_match_types g = Except.error e →
      ∃ id_ doc, lineStep name st line = LineOut.next
          { lines_processed := st.lines_processed + 1,
            lines_errored := st.lines_errored,
            outbox := st.outbox ++ [(id_, doc)] } ∧
        ∃ elbd, alookup doc "@elb" = some (vDict elbd) ∧
          alookup elbd "received_bytes" = (alookup g "received_bytes").map vStr) := by
  refine ⟨?_, ?_, ?_⟩
  · intro f c g d s hmem hg hs hc
    exact coerceFields_null _ _ _ _ c s (by decide) hmem
      (by rw [alookup_rawDict, hg]; rfl) hs hc
  · intro name line st g e hm hc
    exact lineStep_alb_rawpath name line st g e hm hc
  · intro name line st g e hma hme hc
    exact lineStep_elb_rawpath name line st g e hma hme hc

/-- The groupdict of the dash-trace ALB line. -/
def gDash : List (String × String) :=
  (rxMatch ALB_LOG_LINE_REGEX (pyStrip albLineDashTrace)).getD []

/-- Its coerced dict. -/
def dDash : Dict :=
  match coerce_match_types gDash with
  | Except.ok d => d
  | Except.error _ => []

/-- The groupdicts of the two bad-status lines. -/
def gBadAlb : List (String × String) :=
  (rxMatch ALB_LOG_LINE_REGEX (pyStrip albLineBadStatus)).getD []

def gBadElb : List (String × String) :=
  (rxMatch ELB_LOG_LINE_REGEX (pyStrip elbLineBadStatus)).getD []

set_option maxRecDepth 1000000 in
/-- Witness for C9 at concrete lines: the dash trace-id coerces to null;
the ALB and ELB lines with a `2-0` status code fail coercion yet still
produce a record. -/
theorem claim_C9_witness :
    (alookup dDash "trace_id" = some vNull) ∧
    (∃ t doc, alookup gBadAlb "trace_id" = some t ∧
      lineStep "f.log" ⟨0, 0, []⟩ albLineBadStatus = LineOut.next
        { lines_processed := 0 + 1, lines_errored := 0,
          outbox := [] ++ [(sha256hex t, doc)] } ∧
      ∃ albd, alookup doc "@alb" = some (vDict albd) ∧
        alookup albd "received_bytes" = (alookup gBadAlb "received_bytes").map vStr) ∧
    (∃ id_ doc, lineStep "f.log" ⟨0, 0, []⟩ elbLineBadStatus = LineOut.next
        { lines_processed := 0 + 1, lines_errored := 0,
          outbox := [] ++ [(id_, doc)] } ∧
      ∃ elbd, alookup doc "@elb" = some (vDict elbd) ∧
        alookup elbd "received_bytes" = (alookup gBadElb "received_bytes").map vStr) :=
  ⟨claim_C9_field_coercion.1 "trace_id" Converter.cstr gDash dDash "-"
      (by decide) (by rfl) (Or.inl rfl) (by rfl),
   claim_C9_field_coercion.2.1 "f.log" albLineBadStatus ⟨0, 0, []⟩ gBadAlb
      PyErr.valueError (by rfl) (by rfl),
   claim_C9_field_coercion.2.2 "f.log" elbLineBadStatus ⟨0, 0, []⟩ gBadElb
      PyErr.valueError (by rfl) (by rfl) (by rfl)⟩

/-- C10: an ALB line whose trace-id matched as `-` or the empty string (and
whose other fields coerce) ends in an uncaught key-lookup error inside
`generate_id`: no record is enqueued, the per-line step raises, and any
batch starting with that line makes the whole `parse_alb_logs` call raise. -/
theorem claim_C10_trace_id_keyerror (name line : String) (st : PState)
    (g : List (String × String)) (d : Dict)
    (hm : rxMatch ALB_LOG_LINE_REGEX (pyStrip line) = some g)
    (htr : alookup g "trace_id" = some "-" ∨ alookup g "trace_id" = some "")
    (hc : coerce_match_types g = Except.ok d) :
    ∃ k, lineStep name st line = LineOut.exc (PyErr.keyError k) ∧
      ∀ rest, parse_alb_logs name st (line :: rest) =
        Except.error (PyErr.keyError k) := by
  obtain ⟨k, hk⟩ := lineStep_alb_trace_null name line st g d hm htr hc
  exact ⟨k, hk, fun rest => by simp [parse_alb_logs, hk]⟩

set_option maxRecDepth 1000000 in
/-- Witness for C10 at the concrete dash-trace line. -/
theorem claim_C10_witness :
    ∃ k, lineStep "f.log" ⟨0, 0, []⟩ albLineDashTrace = LineOut.exc (PyErr.keyError k) ∧
      ∀ rest, parse_alb_logs "f.log" ⟨0, 0, []⟩ (albLineDashTrace :: rest) =
        Except.error (PyErr.keyError k) :=
  claim_C10_trace_id_keyerror "f.log" albLineDashTrace ⟨0, 0, []⟩ gDash dDash
    (by rfl) (Or.inl (by rfl)) (by rfl)
